import Mathlib

/-!
Shallow embedding of the saegim proof-token lifecycle and notification
delivery engine (server/src/services and server/src/api/routes/public.py),
with theorems settling the specification claims about it.

The relational database is modelled as lists of rows; SQLAlchemy queries
become list lookups, mutations become functional updates, `secrets`
randomness becomes explicit oracle parameters, and background-task
scheduling is counted rather than executed (matching the code, where
`BackgroundTasks.add_task` only enqueues work).
-/

set_option autoImplicit false

namespace Saegim

/-! ## Enumerations (src/models) -/

/-- `ProofType` from src/models/proof.py. -/
inductive ProofType where
  | BEFORE
  | AFTER
  | RECEIPT
  | DAMAGE
  | OTHER
deriving DecidableEq, Repr

/-- `.value` of the str-enum. -/
def ProofType.value : ProofType → String
  | .BEFORE => "BEFORE"
  | .AFTER => "AFTER"
  | .RECEIPT => "RECEIPT"
  | .DAMAGE => "DAMAGE"
  | .OTHER => "OTHER"

/-- `OrderStatus` from src/models/order.py. -/
inductive OrderStatus where
  | PENDING
  | TOKEN_ISSUED
  | PROOF_UPLOADED
  | NOTIFIED
  | COMPLETED
deriving DecidableEq, Repr

/-- `NotificationType` from src/models/notification.py. -/
inductive NotificationType where
  | SENDER
  | RECIPIENT
  | REMINDER
deriving DecidableEq, Repr

def NotificationType.value : NotificationType → String
  | .SENDER => "SENDER"
  | .RECIPIENT => "RECIPIENT"
  | .REMINDER => "REMINDER"

/-- `NotificationChannel` from src/models/notification.py. -/
inductive NotificationChannel where
  | ALIMTALK
  | SMS
deriving DecidableEq, Repr

/-- `NotificationStatus` from src/models/notification.py. -/
inductive NotificationStatus where
  | PENDING
  | SENT
  | FAILED
  | FALLBACK_SENT
  | MOCK_SENT
deriving DecidableEq, Repr

/-! ## Row types (src/models) -/

/-- `Organization` fields used by the notification/token core
(src/models/organization.py). -/
structure Organization where
  id : Nat
  name : String
  brand_name : Option String
  brand_domain : Option String
  logo_url : Option String
  brand_logo_url : Option String
  hide_saegim : Bool
  msg_alimtalk_template_sender : Option String
  msg_alimtalk_template_recipient : Option String
  msg_sms_template_sender : Option String
  msg_sms_template_recipient : Option String
  msg_kakao_template_code : Option String
  msg_fallback_sms_enabled : Option Bool
deriving DecidableEq, Repr

/-- `Order` from src/models/order.py (fields touched by the core). -/
structure Order where
  id : Nat
  organization_id : Nat
  order_number : String
  context : Option String
  asset_meta : Option String
  sender_name : String
  sender_phone_encrypted : String
  recipient_name : Option String
  recipient_phone_encrypted : Option String
  status : OrderStatus
deriving DecidableEq, Repr

/-- `QRToken` from src/models/qr_token.py.  The `token` column carries a
unique constraint, and `order_id` is unique as well (one token row per
order). -/
structure QRToken where
  id : Nat
  token : String
  order_id : Nat
  is_valid : Bool
  revoked_at : Option Nat
deriving DecidableEq, Repr

/-- `Proof` from src/models/proof.py. -/
structure Proof where
  id : Nat
  order_id : Nat
  proof_type : ProofType
  file_path : String
  file_size : Nat
  mime_type : Option String
  uploaded_at : String
deriving DecidableEq, Repr

/-- `Notification` from src/models/notification.py. -/
structure Notification where
  order_id : Nat
  type : NotificationType
  channel : NotificationChannel
  status : NotificationStatus
  phone_hash : String
  message_url : Option String
  provider_request_id : Option String
  provider_response : Option String
  error_code : Option String
  error_message : Option String
deriving DecidableEq, Repr

/-- `ShortLink` rows handled by src/services/short_link_service.py. -/
structure ShortLink where
  code : String
  order_id : Nat
  target_token : String
  target_path : String
  click_count : Nat
deriving DecidableEq, Repr

/-- Relational state: one list per table, plus primary-key counters. -/
structure DB where
  organizations : List Organization
  orders : List Order
  tokens : List QRToken
  proofs : List Proof
  notifications : List Notification
  shortLinks : List ShortLink
  nextTokenId : Nat
  nextProofId : Nat
deriving DecidableEq, Repr

/-- Relevant process-wide configuration (src/core/config.py). -/
structure Settings where
  APP_BASE_URL : String
  WEB_BASE_URL : String
  SHORT_URL_BASE : String
  MESSAGING_PROVIDER : String
  FALLBACK_SMS_ENABLED : Bool
  NOTIFICATION_MAX_RETRIES : Nat
  NOTIFICATION_RETRY_DELAY_SECONDS : Rat
  ALIMTALK_TEMPLATE_SENDER : String
  ALIMTALK_TEMPLATE_RECIPIENT : String
  SMS_TEMPLATE_SENDER : String
  SMS_TEMPLATE_RECIPIENT : String
  KAKAO_TEMPLATE_PROOF_DONE : Option String
deriving DecidableEq, Repr

/-- The defaults declared in src/core/config.py for the modelled fields. -/
def defaultSettings : Settings where
  APP_BASE_URL := "http://localhost:8000"
  WEB_BASE_URL := "http://localhost:3000"
  SHORT_URL_BASE := "http://localhost:3000"
  MESSAGING_PROVIDER := "mock"
  FALLBACK_SMS_ENABLED := true
  NOTIFICATION_MAX_RETRIES := 3
  NOTIFICATION_RETRY_DELAY_SECONDS := 1
  ALIMTALK_TEMPLATE_SENDER := "\x7bbrand\x7d\\n인증: \x7burl\x7d"
  ALIMTALK_TEMPLATE_RECIPIENT := "\x7bbrand\x7d\\n인증: \x7burl\x7d"
  SMS_TEMPLATE_SENDER := "[\x7bbrand\x7d] 인증 \x7burl\x7d"
  SMS_TEMPLATE_RECIPIENT := "[\x7bbrand\x7d] 인증 \x7burl\x7d"
  KAKAO_TEMPLATE_PROOF_DONE := none

/-! ## Small Python-semantics helpers -/

/-- Python `a or b` for an optional string `a`: the empty string is falsy. -/
def pyOr (a : Option String) (b : String) : String :=
  match a with
  | some s => if s == "" then b else s
  | none => b

/-- Python `a or b` when both sides are optional strings. -/
def pyOrOpt (a : Option String) (b : Option String) : Option String :=
  match a with
  | some s => if s == "" then b else some s
  | none => b

/-- Python `str.rstrip("/")`. -/
def rstripSlash (s : String) : String :=
  String.mk ((s.toList.reverse.dropWhile (fun c => c == '/')).reverse)

/-- Replace every non-overlapping occurrence of `old` (left to right)
with `new`, with explicit fuel; Python `str.replace` semantics for a
non-empty `old`. -/
def replaceFuel (old new : List Char) : Nat → List Char → List Char
  | 0, s => s
  | fuel + 1, s =>
    if old.isPrefixOf s && !old.isEmpty then
      new ++ replaceFuel old new fuel (s.drop old.length)
    else
      match s with
      | [] => []
      | c :: rest => c :: replaceFuel old new fuel rest

/-- Python `s.replace(old, new)` (the modelled code never passes an
empty `old`, for which this is the identity). -/
def py_replace (s old new : String) : String :=
  String.mk (replaceFuel old.toList new.toList s.toList.length s.toList)

/-- ASCII whitespace, as stripped by Python `str.strip()`. -/
def isSpaceChar (c : Char) : Bool :=
  c == ' ' || c == '\t' || c == '\n' || c == '\r'

/-- Python `str.strip()`. -/
def py_strip (s : String) : String :=
  String.mk (((s.toList.dropWhile isSpaceChar).reverse.dropWhile isSpaceChar).reverse)

/-- ASCII lower-casing of one character. -/
def lowerChar (c : Char) : Char :=
  if 'A' ≤ c && c ≤ 'Z' then Char.ofNat (c.toNat + 32) else c

/-- Python `str.lower()` (ASCII range, which covers every compared
literal in the modelled code). -/
def py_lower (s : String) : String :=
  String.mk (s.toList.map lowerChar)

/-- Python `s.startswith(pre)`. -/
def py_startswith (s pre : String) : Bool :=
  pre.toList.isPrefixOf s.toList

/-- Python `s[:n]`. -/
def str_take (s : String) (n : Nat) : String :=
  String.mk (s.toList.take n)

/-! ## TokenService (src/services/token_service.py) -/

/-- `TokenService.get_token`: first row whose `token` column matches. -/
def get_token (db : DB) (token : String) : Option QRToken :=
  db.tokens.find? (fun q => q.token == token)

/-- `TokenService.validate_token`: exists and not revoked. -/
def validate_token (db : DB) (token : String) : Bool :=
  match get_token db token with
  | some q => q.is_valid
  | none => false

/-- `TokenService.get_order_by_token`: the owning order, only while valid. -/
def get_order_by_token (db : DB) (token : String) : Option Order :=
  match get_token db token with
  | some q => if q.is_valid then db.orders.find? (fun o => o.id == q.order_id) else none
  | none => none

/-- `TokenService.revoke_token`: valid → invalid with timestamp; returns
`false` if unknown or already invalid. -/
def revoke_token (db : DB) (token : String) (now : Nat) : DB × Bool :=
  match get_token db token with
  | some q =>
    if q.is_valid then
      ({ db with tokens := db.tokens.map (fun r =>
          if r.token == token then { r with is_valid := false, revoked_at := some now } else r) },
        true)
    else (db, false)
  | none => (db, false)

/-- `TokenService.invalidate_token_after_proof`: mark used, no result. -/
def invalidate_token_after_proof (db : DB) (token : String) : DB :=
  match get_token db token with
  | some _ =>
    { db with tokens := db.tokens.map (fun r =>
        if r.token == token then { r with is_valid := false } else r) }
  | none => db

/-- `TokenService.create_token_for_order` with the generated random token
made explicit.  The insert respects the unique constraints on
`qr_tokens.token` and `qr_tokens.order_id`; a conflicting insert fails
(`none`), as the database would raise. -/
def create_token_for_order (db : DB) (order_id : Nat) (newTok : String) :
    Option (DB × QRToken) :=
  if db.tokens.any (fun q => q.token == newTok || q.order_id == order_id) then none
  else
    let row : QRToken :=
      { id := db.nextTokenId, token := newTok, order_id := order_id,
        is_valid := true, revoked_at := none }
    some ({ db with tokens := db.tokens ++ [row], nextTokenId := db.nextTokenId + 1 }, row)

/-! ## get_proof_by_token (public proof page data) -/

/-- One entry of the public proof list built by
`TokenService.get_proof_by_token`. -/
structure ProofItem where
  id : Nat
  proof_type : String
  proof_url : String
  uploaded_at : String
deriving DecidableEq, Repr

/-- The `type_order` ranking used to sort the proof list. -/
def proofTypeRank (t : String) : Nat :=
  if t == "BEFORE" then 0
  else if t == "AFTER" then 1
  else if t == "RECEIPT" then 2
  else if t == "DAMAGE" then 3
  else if t == "OTHER" then 4
  else 5

/-- Stable insertion used to mirror Python's stable `list.sort`. -/
def insertByRank (p : ProofItem) : List ProofItem → List ProofItem
  | [] => [p]
  | q :: qs =>
    if proofTypeRank p.proof_type ≤ proofTypeRank q.proof_type then p :: q :: qs
    else q :: insertByRank p qs

/-- Stable sort of the proof items by `proofTypeRank`. -/
def sortByRank : List ProofItem → List ProofItem
  | [] => []
  | p :: ps => insertByRank p (sortByRank ps)

/-- The dict returned by `TokenService.get_proof_by_token`. -/
structure ProofPageData where
  order_number : String
  context : Option String
  organization_name : String
  organization_logo : Option String
  hide_saegim : Bool
  asset_meta : Option String
  proofs : List ProofItem
  proof_url : String
  uploaded_at : String
deriving DecidableEq, Repr

/-- `TokenService.get_proof_by_token`: public proof-page data.  The token
row is looked up WITHOUT checking `is_valid`; `none` is returned when the
row is absent or the order has no proofs.  (The order and organization
lookups mirror the non-nullable foreign keys; a dangling reference yields
`none` in this total model.) -/
def get_proof_by_token (db : DB) (token : String) : Option ProofPageData :=
  match get_token db token with
  | none => none
  | some q =>
    match db.orders.find? (fun o => o.id == q.order_id) with
    | none => none
    | some order =>
      match db.organizations.find? (fun g => g.id == order.organization_id) with
      | none => none
      | some org =>
        let proofs := db.proofs.filter (fun p => p.order_id == order.id)
        if proofs.isEmpty then none
        else
          let proof_items := proofs.map (fun p =>
            ({ id := p.id, proof_type := p.proof_type.value,
               proof_url := "/uploads/" ++ p.file_path,
               uploaded_at := p.uploaded_at } : ProofItem))
          let sorted := sortByRank proof_items
          let after_proof := sorted.find? (fun p => p.proof_type == "AFTER")
          match sorted with
          | [] => none
          | hd :: _ =>
            let primary := match after_proof with
              | some a => a
              | none => hd
            some
              { order_number := order.order_number
                context := order.context
                organization_name := pyOr org.brand_name org.name
                organization_logo := pyOrOpt org.brand_logo_url org.logo_url
                hide_saegim := org.hide_saegim
                asset_meta := order.asset_meta
                proofs := sorted
                proof_url := primary.proof_url
                uploaded_at := primary.uploaded_at }

/-! ## ProofService (src/services/proof_service.py) -/

/-- An uploaded file as seen by the service (`UploadFile`): caller-supplied
name, declared content type, and the bytes read from the stream. -/
structure UploadedFile where
  filename : Option String
  content_type : Option String
  contents : String
deriving DecidableEq, Repr

/-- `os.path.basename` on POSIX: the part after the last slash. -/
def basename (s : String) : String :=
  String.mk ((s.toList.reverse.takeWhile (fun c => !(c == '/'))).reverse)

/-- Suffix starting at the LAST dot of the list, or `[]` when there is
no dot. -/
def lastDotSuffix : List Char → List Char
  | [] => []
  | c :: rest =>
    let tailRes := lastDotSuffix rest
    if tailRes.isEmpty && c == '.' then c :: rest else tailRes

/-- The extension part of `os.path.splitext`: the suffix from the last
dot, where leading dots of the name never begin an extension. -/
def splitextExt (s : String) : String :=
  let cs := s.toList
  let lead := cs.takeWhile (fun c => c == '.')
  String.mk (lastDotSuffix (cs.drop lead.length))

/-- The extension allow-list in `ProofService.create_proof`. -/
def allowedExts : List String :=
  [".jpg", ".jpeg", ".png", ".webp", ".heic", ".heif"]

/-- The `ValueError`s raised by `ProofService.create_proof`. -/
inductive ProofError where
  | tokenInvalid
  | duplicateProofType (pt : ProofType)
deriving DecidableEq, Repr

/-- `str(e)` for those errors. -/
def ProofError.message : ProofError → String
  | .tokenInvalid => "Invalid or expired token."
  | .duplicateProofType pt => pt.value ++ " proof already uploaded for this order."

/-- The success dict of `ProofService.create_proof`. -/
structure CreateProofOk where
  status : String
  proof_id : Nat
  proof_type : ProofType
  message : String
deriving DecidableEq, Repr

/-- Result of `ProofService.create_proof`: the new database state, the
outcome, and how many times `send_dual_notification` was invoked (it only
schedules background work, so it is counted, not executed). -/
structure CreateProofOut where
  db : DB
  result : Except ProofError CreateProofOk
  dual_notifications : Nat
deriving Repr

/-- `ProofService.create_proof` (src/services/proof_service.py).  `ts` is
the `utcnow` timestamp string used in the generated filename.  File I/O is
modelled as succeeding. -/
def create_proof (db : DB) (token : String) (file : UploadedFile)
    (pt : ProofType) (ts : String) : CreateProofOut :=
  match get_order_by_token db token with
  | none => ⟨db, .error .tokenInvalid, 0⟩
  | some order =>
    match db.proofs.find? (fun p => p.order_id == order.id && p.proof_type == pt) with
    | some _ => ⟨db, .error (.duplicateProofType pt), 0⟩
    | none =>
      let original := basename (file.filename.getD "")
      let ext0 := py_lower (splitextExt original)
      let ext :=
        if allowedExts.contains ext0 then ext0
        else if py_lower (file.content_type.getD "") == "image/png" then ".png"
        else ".jpg"
      let safe_filename := toString order.id ++ "_" ++ pt.value ++ "_" ++ ts ++ ext
      let proof : Proof :=
        { id := db.nextProofId, order_id := order.id, proof_type := pt,
          file_path := safe_filename, file_size := file.contents.length,
          mime_type := file.content_type, uploaded_at := ts }
      let db1 := { db with proofs := db.proofs ++ [proof], nextProofId := db.nextProofId + 1 }
      let db2 :=
        if pt == ProofType.AFTER then
          invalidate_token_after_proof
            { db1 with orders := db1.orders.map (fun o =>
                if o.id == order.id then { o with status := .PROOF_UPLOADED } else o) }
            token
        else db1
      let dispatched := if pt == ProofType.AFTER then 1 else 0
      ⟨db2, .ok ⟨"success", proof.id, pt,
        pt.value ++ " proof uploaded successfully."⟩, dispatched⟩

/-! ## Public upload route (src/api/routes/public.py, `upload_proof`) -/

/-- `ProofUploadResponse` schema. -/
structure ProofUploadResponse where
  status : String
  proof_id : Nat
  proof_type : ProofType
  message : String
deriving DecidableEq, Repr

/-- Result of the `POST /public/proof/(token)/upload` route: new state, an
HTTP outcome (status code and detail on error), and the count of scheduled
dual notifications. -/
structure UploadOut where
  db : DB
  response : Except (Nat × String) ProofUploadResponse
  dual_notifications : Nat
deriving Repr

/-- `upload_proof` route handler: content-type gate, 10MB size gate, then
`ProofService.create_proof`; `ValueError` becomes HTTP 404 with `str(e)`. -/
def upload_proof (db : DB) (token : String) (file : UploadedFile)
    (pt : ProofType) (ts : String) : UploadOut :=
  if !(py_startswith (file.content_type.getD "") "image/") then
    ⟨db, .error (422, "UPLOAD_FAILED: Invalid file type. Only images are allowed."), 0⟩
  else if file.contents.length > 10 * 1024 * 1024 then
    ⟨db, .error (422, "UPLOAD_FAILED: File too large. Maximum size is 10MB."), 0⟩
  else
    let r := create_proof db token file pt ts
    match r.result with
    | .ok res => ⟨r.db, .ok ⟨res.status, res.proof_id, res.proof_type, res.message⟩,
        r.dual_notifications⟩
    | .error e => ⟨r.db, .error (404, e.message), r.dual_notifications⟩

/-- `GET /public/proof/(token)` route: 404 `TOKEN_INVALID` only when
`get_proof_by_token` returns nothing. -/
def route_get_proof (db : DB) (token : String) : Except (Nat × String) ProofPageData :=
  match get_proof_by_token db token with
  | none => .error (404, "TOKEN_INVALID")
  | some d => .ok d

/-- `PublicOrderSummary` as built by the `GET /public/order/(token)` route. -/
structure PublicOrderSummary where
  order_number : String
  context : Option String
  organization_name : String
  has_before_proof : Bool
  has_after_proof : Bool
deriving DecidableEq, Repr

/-- `GET /public/order/(token)` route: 404 `TOKEN_INVALID` whenever the
token does not validate to an order. -/
def route_get_order_summary (db : DB) (token : String) :
    Except (Nat × String) PublicOrderSummary :=
  match get_order_by_token db token with
  | none => .error (404, "TOKEN_INVALID")
  | some order =>
    match db.organizations.find? (fun g => g.id == order.organization_id) with
    | none => .error (404, "TOKEN_INVALID")
    | some org =>
      .ok { order_number := order.order_number
            context := order.context
            organization_name := pyOr org.brand_name org.name
            has_before_proof := db.proofs.any (fun p =>
              p.order_id == order.id && p.proof_type == ProofType.BEFORE)
            has_after_proof := db.proofs.any (fun p =>
              p.order_id == order.id && p.proof_type == ProofType.AFTER) }

/-! ## AdminService.issue_token (src/services/admin_service.py) -/

/-- The dict returned by `AdminService.issue_token`. -/
structure IssueTokenOut where
  token : String
  token_valid : Bool
  upload_url : String
  public_proof_url : String
deriving DecidableEq, Repr

inductive AdminError where
  | orderNotFound
  | integrityError
deriving DecidableEq, Repr

/-- The create-and-flip-status tail of `issue_token` (after any existing
row was deleted). -/
def issue_new (cfg : Settings) (db : DB) (order : Order) (newTok : String) :
    DB × Except AdminError IssueTokenOut :=
  match create_token_for_order db order.id newTok with
  | none => (db, .error .integrityError)
  | some (db1, qr) =>
    let db2 := { db1 with orders := db1.orders.map (fun o =>
      if o.id == order.id then { o with status := .TOKEN_ISSUED } else o) }
    (db2, .ok { token := qr.token, token_valid := true,
                upload_url := cfg.WEB_BASE_URL ++ "/proof/" ++ qr.token,
                public_proof_url := cfg.WEB_BASE_URL ++ "/p/" ++ qr.token })

/-- `AdminService.issue_token(order_id, scope_org_id, force)` with the
freshly generated random token value passed explicitly.  A valid existing
token is returned unchanged unless `force`; otherwise the existing row is
deleted first and a new one is created, setting the order status to
`TOKEN_ISSUED`. -/
def issue_token (cfg : Settings) (db : DB) (order_id : Nat)
    (scope_org_id : Option Nat) (force : Bool) (newTok : String) :
    DB × Except AdminError IssueTokenOut :=
  let order? := db.orders.find? (fun o =>
    o.id == order_id &&
      (match scope_org_id with
       | some s => o.organization_id == s
       | none => true))
  match order? with
  | none => (db, .error .orderNotFound)
  | some order =>
    match db.tokens.find? (fun q => q.order_id == order.id) with
    | some ex =>
      if ex.is_valid && !force then
        (db, .ok { token := ex.token, token_valid := true,
                   upload_url := cfg.WEB_BASE_URL ++ "/proof/" ++ ex.token,
                   public_proof_url := cfg.WEB_BASE_URL ++ "/p/" ++ ex.token })
      else
        issue_new cfg { db with tokens := db.tokens.filter (fun q => !(q.order_id == order.id)) }
          order newTok
    | none => issue_new cfg db order newTok

/-! ## ShortLinkService (src/services/short_link_service.py) -/

/-- `_ALPHABET`: no ambiguous 0/O/1/I. -/
def ALPHABET : List Char := "23456789ABCDEFGHJKLMNPQRSTUVWXYZ".toList

/-- `_generate_code(length)` with the `secrets.randbelow(32)` draws made
explicit as an oracle `rand`; draw `i` of this code uses stream position
`off + i`. -/
def generate_code (rand : Nat → Fin 32) (off : Nat) (length : Nat) : String :=
  String.mk ((List.range length).map (fun i => ALPHABET.getD (rand (off + i)).val 'A'))

/-- The bounded collision-retry loop of `get_or_create_public_proof`:
`fuel` seven-character attempts checked for uniqueness, then one
unchecked nine-character last-resort code. -/
def short_code_loop (db : DB) (order_id : Nat) (token : String)
    (rand : Nat → Fin 32) : Nat → Nat → DB × ShortLink
  | _attempt, 0 =>
    let code := generate_code rand (12 * 7) 9
    let link : ShortLink :=
      { code := code, order_id := order_id, target_token := token,
        target_path := "/p", click_count := 0 }
    ({ db with shortLinks := db.shortLinks ++ [link] }, link)
  | attempt, fuel + 1 =>
    let code := generate_code rand (attempt * 7) 7
    if db.shortLinks.any (fun l => l.code == code) then
      short_code_loop db order_id token rand (attempt + 1) fuel
    else
      let link : ShortLink :=
        { code := code, order_id := order_id, target_token := token,
          target_path := "/p", click_count := 0 }
      ({ db with shortLinks := db.shortLinks ++ [link] }, link)

/-- `ShortLinkService.get_or_create_public_proof`: one short link per
order; an existing link is retargeted in place when the token changed;
otherwise a fresh code is generated with up to 12 uniqueness-checked
attempts and a longer last-resort code. -/
def get_or_create_public_proof (db : DB) (order_id : Nat) (token : String)
    (rand : Nat → Fin 32) : DB × ShortLink :=
  match db.shortLinks.find? (fun l => l.order_id == order_id) with
  | some existing =>
    if existing.target_token != token then
      let updated := { existing with target_token := token }
      ({ db with shortLinks := db.shortLinks.map (fun l =>
          if l.order_id == order_id then updated else l) }, updated)
    else (db, existing)
  | none => short_code_loop db order_id token rand 0 12

/-! ## Retry executor (`_retry_with_backoff`, src/services/notification_service.py) -/

/-- The loop body of `_retry_with_backoff`.  `f a` is the outcome of the
`a`-th invocation of the wrapped coroutine; `remaining` counts how many
further attempts may follow the current one.  Returns the final outcome,
the list of backoff sleeps performed (in seconds), and the number of
invocations made. -/
def retry_loop {E A : Type} (f : Nat → Except E A) (base : Rat) :
    Nat → Nat → Except E A × List Rat × Nat
  | attempt, remaining =>
    match f attempt with
    | .ok a => (.ok a, [], 1)
    | .error e =>
      match remaining with
      | 0 => (.error e, [], 1)
      | r + 1 =>
        let rest := retry_loop f base (attempt + 1) r
        (rest.1, base * 2 ^ attempt :: rest.2.1, rest.2.2 + 1)

/-- `_retry_with_backoff(coro_func, max_retries, base_delay)`: up to
`max_retries + 1` invocations with exponential backoff, the last
exception re-raised unchanged. -/
def retry_with_backoff {E A : Type} (f : Nat → Except E A)
    (max_retries : Nat) (base_delay : Rat) : Except E A × List Rat × Nat :=
  retry_loop f base_delay 0 max_retries

/-! ## Message rendering and templates -/

/-- The placeholder context assembled by `_send_notification`. -/
structure RenderCtx where
  brand : String
  url : String
  order : String
  context : String
  sender : String
  recipient : String
deriving DecidableEq, Repr

/-- Modelled from the spec: `src/services/message_render.py` is not among
the provided sources.  Per the spec, the Template Renderer "substitutes
placeholders ({brand},{url},{order},{context},{sender},{recipient}) into
message strings". -/
def render (template : String) (ctx : RenderCtx) : String :=
  py_replace (py_replace (py_replace (py_replace (py_replace (py_replace
    template "\x7bbrand\x7d" ctx.brand)
    "\x7burl\x7d" ctx.url)
    "\x7border\x7d" ctx.order)
    "\x7bcontext\x7d" ctx.context)
    "\x7bsender\x7d" ctx.sender)
    "\x7brecipient\x7d" ctx.recipient

/-- The dict built by `_templates_for_order`: organization overrides take
precedence over the global defaults. -/
structure Templates where
  alimtalk_sender : String
  alimtalk_recipient : String
  sms_sender : String
  sms_recipient : String
  kakao_template_code : Option String
  fallback_sms_enabled : Bool
deriving DecidableEq, Repr

/-- `_templates_for_order` (the order's organization may be absent). -/
def templates_for_order (cfg : Settings) (org : Option Organization) : Templates :=
  let alim_sender := org.bind (fun g => g.msg_alimtalk_template_sender)
  let alim_recipient := org.bind (fun g => g.msg_alimtalk_template_recipient)
  let sms_sender := org.bind (fun g => g.msg_sms_template_sender)
  let sms_recipient := org.bind (fun g => g.msg_sms_template_recipient)
  let kakao_template_code := org.bind (fun g => g.msg_kakao_template_code)
  let fallback_override := org.bind (fun g => g.msg_fallback_sms_enabled)
  { alimtalk_sender := pyOr alim_sender cfg.ALIMTALK_TEMPLATE_SENDER
    alimtalk_recipient := pyOr alim_recipient cfg.ALIMTALK_TEMPLATE_RECIPIENT
    sms_sender := pyOr sms_sender cfg.SMS_TEMPLATE_SENDER
    sms_recipient := pyOr sms_recipient cfg.SMS_TEMPLATE_RECIPIENT
    kakao_template_code := pyOrOpt kakao_template_code cfg.KAKAO_TEMPLATE_PROOF_DONE
    fallback_sms_enabled :=
      match fallback_override with
      | none => cfg.FALLBACK_SMS_ENABLED
      | some b => b }

/-- `_short_base_for_order`: white-label domain first, then
`SHORT_URL_BASE`, then `WEB_BASE_URL`, right-stripped of slashes. -/
def short_base_for_order (cfg : Settings) (org : Option Organization) : String :=
  let domain : Option String :=
    match org with
    | some g =>
      let d := py_strip (g.brand_domain.getD "")
      if d == "" then none else some d
    | none => none
  let base :=
    match domain with
    | some d => d
    | none => if cfg.SHORT_URL_BASE == "" then cfg.WEB_BASE_URL else cfg.SHORT_URL_BASE
  rstripSlash base

/-- `_brand_for_order`: brand name, else organization name, else the
default brand. -/
def brand_for_order (org : Option Organization) : String :=
  let brand : Option String :=
    match org with
    | none => none
    | some g =>
      let b := py_strip (g.brand_name.getD "")
      if b != "" then some b
      else
        let n := py_strip g.name
        if n != "" then some n else none
  brand.getD "새김"

/-- `_clean_phone`. -/
def clean_phone (phone : String) : String :=
  py_strip (py_replace (py_replace phone "-" "") " " "")

/-! ## NotificationService (src/services/notification_service.py) -/

/-- A provider success (`res.request_id`, `res.raw`). -/
structure SendResult where
  request_id : String
  raw : String
deriving DecidableEq, Repr

/-- A provider exception: optional structured `code` and `details`
attributes plus the exception text. -/
structure SendError where
  code : Option String
  details : Option String
  msg : String
deriving DecidableEq, Repr

/-- The channel chosen for the primary delivery: one provider family is
SMS only, everything else defaults to the rich-message channel. -/
def primary_channel_of (cfg : Settings) : NotificationChannel :=
  let provider_key := py_lower (py_strip (pyOr (some cfg.MESSAGING_PROVIDER) "mock"))
  if provider_key == "sens_sms" || provider_key == "sens" then
    NotificationChannel.SMS
  else NotificationChannel.ALIMTALK

/-- The effective SMS-fallback switch (organization override over the
global default), as computed inside `_templates_for_order`. -/
def fallback_enabled (cfg : Settings) (org : Option Organization) : Bool :=
  (templates_for_order cfg org).fallback_sms_enabled

/-- Commit of a mutation to the row the service just added (SQLAlchemy
mutates the tracked object; the row is the last one appended). -/
def updateLast {α : Type} (f : α → α) : List α → List α
  | [] => []
  | [a] => [f a]
  | a :: rest => a :: updateLast f rest

def update_last_notification (db : DB) (f : Notification → Notification) : DB :=
  { db with notifications := updateLast f db.notifications }

/-- State and log lines produced by one delivery task. -/
structure SendOut where
  db : DB
  logs : List String
deriving Repr

/-- `NotificationService._send_sms_fallback`: synthesize one additional
SMS notification row, attempt it with retry, and record its own failure
as terminal `FAILED`.  `fallback_send k` is the outcome of the `k`-th
invocation of the SMS provider call. -/
def send_sms_fallback (cfg : Settings) (hash_phone : String → String)
    (fallback_send : Nat → Except SendError SendResult)
    (db : DB) (order_id : Nat) (phone0 : String) (ntype : NotificationType)
    (ctx : RenderCtx) (templates : Templates) : SendOut :=
  let phone := clean_phone phone0
  let phone_hash := hash_phone phone
  let fallback : Notification :=
    { order_id := order_id, type := ntype, channel := .SMS, status := .PENDING,
      phone_hash := phone_hash, message_url := some ctx.url,
      provider_request_id := none, provider_response := none,
      error_code := none, error_message := none }
  let db1 := { db with notifications := db.notifications ++ [fallback] }
  if cfg.MESSAGING_PROVIDER == "mock" then
    ⟨update_last_notification db1 (fun n =>
        { n with status := .MOCK_SENT, provider_response := some "MOCK_SMS_FALLBACK" }),
      ["[MOCK] SMS fallback order=" ++ toString order_id ++ " type=" ++ ntype.value]⟩
  else
    let template := if ntype == NotificationType.SENDER then templates.sms_sender
      else templates.sms_recipient
    let _content := render template ctx
    match (retry_with_backoff fallback_send cfg.NOTIFICATION_MAX_RETRIES
        cfg.NOTIFICATION_RETRY_DELAY_SECONDS).1 with
    | .ok r =>
      ⟨update_last_notification db1 (fun n =>
          { n with status := .FALLBACK_SENT,
                   provider_request_id := some r.request_id,
                   provider_response := some (str_take r.raw 4000) }), []⟩
    | .error e =>
      ⟨update_last_notification db1 (fun n =>
          { n with status := .FAILED,
                   error_code := some (pyOr e.code "FALLBACK_FAILED"),
                   error_message := some (pyOr e.details e.msg) }),
        ["SMS fallback failed after retries: order=" ++ toString order_id]⟩

/-- `NotificationService._send_notification`: one delivery with a durable
`PENDING` audit row, mock or real send with retry, failure logging, and
conditional SMS fallback.  `hash_phone` is the external one-way hash,
`rand` feeds short-code generation, and `primary_send` / `fallback_send`
are the outcomes of successive provider invocations. -/
def send_notification (cfg : Settings) (hash_phone : String → String)
    (rand : Nat → Fin 32)
    (primary_send fallback_send : Nat → Except SendError SendResult)
    (db : DB) (order_id : Nat) (phone0 : String) (ntype : NotificationType) :
    SendOut :=
  let phone := clean_phone phone0
  let phone_hash := hash_phone phone
  match db.orders.find? (fun o => o.id == order_id) with
  | none => ⟨db, []⟩
  | some order =>
    let token? : Option String :=
      (db.tokens.find? (fun q => q.order_id == order_id)).map (fun q => q.token)
    let org := db.organizations.find? (fun g => g.id == order.organization_id)
    let st : DB × Option String :=
      match token? with
      | some t =>
        let r := get_or_create_public_proof db order_id t rand
        (r.1, some (short_base_for_order cfg org ++ "/s/" ++ r.2.code))
      | none => (db, none)
    let db1 := st.1
    let short_url? := st.2
    let primary_channel := primary_channel_of cfg
    let pending : Notification :=
      { order_id := order_id, type := ntype, channel := primary_channel,
        status := .PENDING, phone_hash := phone_hash, message_url := short_url?,
        provider_request_id := none, provider_response := none,
        error_code := none, error_message := none }
    let db2 := { db1 with notifications := db1.notifications ++ [pending] }
    let base := short_base_for_order cfg org
    let canonical_url :=
      match token? with
      | some t => base ++ "/p/" ++ t
      | none => base
    let ctx : RenderCtx :=
      { brand := brand_for_order org
        url := short_url?.getD canonical_url
        order := order.order_number
        context := py_strip (order.context.getD "")
        sender := py_strip order.sender_name
        recipient := py_strip (order.recipient_name.getD "") }
    let templates := templates_for_order cfg org
    if cfg.MESSAGING_PROVIDER == "mock" then
      let template := if ntype == NotificationType.SENDER then templates.alimtalk_sender
        else templates.alimtalk_recipient
      let message := render template ctx
      ⟨update_last_notification db2 (fun n =>
          { n with status := .MOCK_SENT, provider_response := some "MOCK" }),
        ["[MOCK] notify type=" ++ ntype.value ++ " phone=" ++ phone ++ " msg=" ++ message]⟩
    else
      match (retry_with_backoff primary_send cfg.NOTIFICATION_MAX_RETRIES
          cfg.NOTIFICATION_RETRY_DELAY_SECONDS).1 with
      | .ok r =>
        ⟨update_last_notification db2 (fun n =>
            { n with status := .SENT,
                     provider_request_id := some r.request_id,
                     provider_response := some (str_take r.raw 4000) }), []⟩
      | .error e =>
        let db3 := update_last_notification db2 (fun n =>
          { n with status := .FAILED,
                   error_code := some (pyOr e.code "SEND_FAILED"),
                   error_message := some (pyOr e.details e.msg) })
        let log1 := "Notification failed order=" ++ toString order_id ++
          " code=" ++ pyOr e.code "SEND_FAILED"
        if primary_channel == NotificationChannel.ALIMTALK
            && templates.fallback_sms_enabled then
          let fb := send_sms_fallback cfg hash_phone fallback_send db3 order_id
            phone ntype ctx templates
          ⟨fb.db, log1 :: fb.logs⟩
        else ⟨db3, [log1]⟩

/-! ## Operation sequences over the token store -/

/-- The state-mutating operations of the modelled core that can touch the
token table. -/
inductive Op where
  | revoke (t : String) (now : Nat)
  | invalidateAfterProof (t : String)
  | issueToken (order_id : Nat) (force : Bool) (newTok : String)
  | uploadProof (t : String) (file : UploadedFile) (pt : ProofType) (ts : String)
deriving Repr

/-- The freshly generated random token value an operation inserts, if
any.  `secrets.token_urlsafe` values are modelled as never colliding with
a designated token of interest. -/
def Op.freshToken : Op → Option String
  | .issueToken _ _ tk => some tk
  | _ => none

/-- State transition of one operation (results discarded). -/
def Op.step (cfg : Settings) (op : Op) (db : DB) : DB :=
  match op with
  | .revoke t now => (revoke_token db t now).1
  | .invalidateAfterProof t => invalidate_token_after_proof db t
  | .issueToken oid force tk => (issue_token cfg db oid none force tk).1
  | .uploadProof t file pt ts => (upload_proof db t file pt ts).db

/-- Run a sequence of operations. -/
def run_ops (cfg : Settings) (ops : List Op) (db : DB) : DB :=
  ops.foldl (fun d op => Op.step cfg op d) db

/-- Every token row carrying value `t` is invalid. -/
def invalidFor (db : DB) (t : String) : Prop :=
  ∀ q ∈ db.tokens, q.token = t → q.is_valid = false

/-! ## Concrete fixtures used by witnesses and counterexamples -/

/-- A wrapped operation that fails twice, then succeeds. -/
def fW : Nat → Except String Nat := fun k => if k < 2 then .error "boom" else .ok 37

/-- A concrete organization with no overrides. -/
def orgW : Organization :=
  { id := 5, name := "Org", brand_name := some "Brand", brand_domain := none,
    logo_url := none, brand_logo_url := none, hide_saegim := false,
    msg_alimtalk_template_sender := none, msg_alimtalk_template_recipient := none,
    msg_sms_template_sender := none, msg_sms_template_recipient := none,
    msg_kakao_template_code := none, msg_fallback_sms_enabled := none }

/-- A concrete order. -/
def oW : Order :=
  { id := 1, organization_id := 5, order_number := "A-1", context := none,
    asset_meta := none, sender_name := "S", sender_phone_encrypted := "enc",
    recipient_name := none, recipient_phone_encrypted := none,
    status := .TOKEN_ISSUED }

/-- A valid token row for `oW`. -/
def qW : QRToken :=
  { id := 1, token := "tokW", order_id := 1, is_valid := true, revoked_at := none }

/-- A database with one order and no token. -/
def dbW : DB :=
  { organizations := [orgW], orders := [oW], tokens := [], proofs := [],
    notifications := [], shortLinks := [], nextTokenId := 1, nextProofId := 1 }

/-- A database with one order and its valid token. -/
def dbT : DB :=
  { organizations := [orgW], orders := [oW], tokens := [qW], proofs := [],
    notifications := [], shortLinks := [], nextTokenId := 2, nextProofId := 1 }

/-- A small valid JPEG upload. -/
def fileW : UploadedFile :=
  { filename := some "a.jpg", content_type := some "image/jpeg", contents := "xx" }

/-- Non-mock configuration with the rich-message provider family. -/
def cfgReal : Settings := { defaultSettings with MESSAGING_PROVIDER := "kakao" }

/-- An already-recorded AFTER proof for `oW`. -/
def proofW : Proof :=
  { id := 1, order_id := 1, proof_type := .AFTER, file_path := "p.jpg",
    file_size := 1, mime_type := some "image/jpeg", uploaded_at := "t0" }

/-- `dbT` with an AFTER proof already recorded. -/
def dbDup : DB := { dbT with proofs := [proofW] }

/-- A non-image upload. -/
def fileTxt : UploadedFile :=
  { filename := some "a.txt", content_type := some "text/plain", contents := "x" }

/-- `dbDup` with the token invalidated (as after a terminal AFTER proof). -/
def dbInv : DB := { dbDup with tokens := [{ qW with is_valid := false }] }

/-- A short link held by another order whose code is the 7-character
code the constant-zero oracle generates. -/
def slA : ShortLink :=
  { code := "2222222", order_id := 2, target_token := "t2",
    target_path := "/p", click_count := 0 }

/-- A short link held by another order whose code is the 9-character
last-resort code the constant-zero oracle generates. -/
def slB : ShortLink :=
  { code := "222222222", order_id := 3, target_token := "t3",
    target_path := "/p", click_count := 0 }

/-- A database whose stored codes collide with every code the
constant-zero oracle can produce. -/
def dbSL : DB := { dbW with shortLinks := [slA, slB] }

/-- A provider error value. -/
def errW : SendError := { code := none, details := none, msg := "down" }

/-- A provider call that always fails. -/
def primFail : Nat → Except SendError SendResult := fun _ => .error errW

/-- A concrete stand-in for the external one-way phone hash. -/
def hashW : String → String := fun s => "h:" ++ s

/-- A constant randomness oracle. -/
def randW : Nat → Fin 32 := fun _ => 0

/-! ## Theorems -/

/-! ### List helpers -/

theorem updateLast_append {α : Type} (f : α → α) (l : List α) (a : α) :
    updateLast f (l ++ [a]) = l ++ [f a] := by
  induction l with
  | nil => rfl
  | cons x xs ih =>
    cases xs with
    | nil => simp [updateLast]
    | cons y ys =>
      have hstep : updateLast f ((x :: y :: ys) ++ [a]) =
          x :: updateLast f ((y :: ys) ++ [a]) := rfl
      rw [hstep, ih]
      rfl

/-! ### Frame lemmas: short-link creation touches only the short-link table -/

theorem short_code_loop_frame (db : DB) (oid : Nat) (tok : String)
    (rand : Nat → Fin 32) :
    ∀ (fuel attempt : Nat),
      (short_code_loop db oid tok rand attempt fuel).1 =
        { db with shortLinks := (short_code_loop db oid tok rand attempt fuel).1.shortLinks } := by
  intro fuel
  induction fuel with
  | zero => intro attempt; rfl
  | succ n ih =>
    intro attempt
    simp only [short_code_loop]
    split
    · exact ih (attempt + 1)
    · rfl

theorem get_or_create_frame (db : DB) (oid : Nat) (tok : String)
    (rand : Nat → Fin 32) :
    (get_or_create_public_proof db oid tok rand).1 =
      { db with shortLinks := (get_or_create_public_proof db oid tok rand).1.shortLinks } := by
  unfold get_or_create_public_proof
  cases h : db.shortLinks.find? (fun l => l.order_id == oid) with
  | none => simpa [h] using short_code_loop_frame db oid tok rand 12 0
  | some existing =>
    by_cases ht : (existing.target_token != tok) = true <;> simp [h, ht]

/-! ### Retry executor -/

theorem retry_loop_spec {E A : Type} (f : Nat → Except E A) (b : Rat) :
    ∀ (remaining attempt : Nat) (res : Except E A) (ds : List Rat) (n : Nat),
      retry_loop f b attempt remaining = (res, ds, n) →
      (1 ≤ n ∧ n ≤ remaining + 1) ∧
      ds = (List.range (n - 1)).map (fun j => b * 2 ^ (attempt + j)) ∧
      (∀ a, res = .ok a →
        f (attempt + (n - 1)) = .ok a ∧
        ∀ j, j < n - 1 → ∃ e, f (attempt + j) = .error e) ∧
      (∀ e, res = .error e →
        n = remaining + 1 ∧
        f (attempt + remaining) = .error e ∧
        ∀ j, j ≤ remaining → ∃ e', f (attempt + j) = .error e') := by
  intro remaining
  induction remaining with
  | zero =>
    intro attempt res ds n h
    rw [retry_loop] at h
    cases hf : f attempt with
    | ok a =>
      rw [hf] at h
      obtain ⟨rfl, rfl, rfl⟩ := Prod.mk.injEq .. ▸ h
      refine ⟨⟨le_refl 1, le_refl 1⟩, by simp, ?_, ?_⟩
      · intro a' ha'
        obtain rfl : a = a' := by simpa using ha'
        exact ⟨by simpa using hf, fun j hj => absurd hj (by omega)⟩
      · intro e he; simp at he
    | error e =>
      rw [hf] at h
      obtain ⟨rfl, rfl, rfl⟩ := Prod.mk.injEq .. ▸ h
      refine ⟨⟨le_refl 1, le_refl 1⟩, by simp, ?_, ?_⟩
      · intro a ha; simp at ha
      · intro e' he'
        obtain rfl : e = e' := by simpa using he'
        refine ⟨rfl, by simpa using hf, ?_⟩
        intro j hj
        obtain rfl : j = 0 := by omega
        exact ⟨e, by simpa using hf⟩
  | succ r ih =>
    intro attempt res ds n h
    rw [retry_loop] at h
    cases hf : f attempt with
    | ok a =>
      rw [hf] at h
      obtain ⟨rfl, rfl, rfl⟩ := Prod.mk.injEq .. ▸ h
      refine ⟨⟨le_refl 1, by omega⟩, by simp, ?_, ?_⟩
      · intro a' ha'
        obtain rfl : a = a' := by simpa using ha'
        exact ⟨by simpa using hf, fun j hj => absurd hj (by omega)⟩
      · intro e he; simp at he
    | error e =>
      rw [hf] at h
      obtain ⟨rfl, rfl, rfl⟩ := Prod.mk.injEq .. ▸ h
      obtain ⟨⟨h1, h2⟩, h3, h4, h5⟩ :=
        ih (attempt + 1) (retry_loop f b (attempt + 1) r).1
          (retry_loop f b (attempt + 1) r).2.1 (retry_loop f b (attempt + 1) r).2.2 rfl
      refine ⟨⟨by omega, by omega⟩, ?_, ?_, ?_⟩
      · rw [h3]
        have hn : (retry_loop f b (attempt + 1) r).2.2 + 1 - 1 =
            ((retry_loop f b (attempt + 1) r).2.2 - 1) + 1 := by omega
        rw [hn, List.range_succ_eq_map, List.map_cons, List.map_map]
        refine congrArg₂ _ (by norm_num) ?_
        refine congrArg₂ _ (funext fun j => ?_) rfl
        show b * 2 ^ (attempt + 1 + j) = b * 2 ^ (attempt + (j + 1))
        have : attempt + 1 + j = attempt + (j + 1) := by omega
        rw [this]
      · intro a ha
        obtain ⟨hok, hfail⟩ := h4 a ha
        constructor
        · have heq : attempt + ((retry_loop f b (attempt + 1) r).2.2 + 1 - 1) =
              attempt + 1 + ((retry_loop f b (attempt + 1) r).2.2 - 1) := by omega
          rw [heq]; exact hok
        · intro j hj
          cases j with
          | zero => exact ⟨e, by simpa using hf⟩
          | succ j' =>
            obtain ⟨e', he'⟩ := hfail j' (by omega)
            refine ⟨e', ?_⟩
            have heq : attempt + (j' + 1) = attempt + 1 + j' := by omega
            rw [heq]; exact he'
      · intro e' he'
        obtain ⟨hn, hlast, hall⟩ := h5 e' he'
        refine ⟨by omega, ?_, ?_⟩
        · have heq : attempt + (r + 1) = attempt + 1 + r := by omega
          rw [heq]; exact hlast
        · intro j hj
          cases j with
          | zero => exact ⟨e, by simpa using hf⟩
          | succ j' =>
            obtain ⟨e'', he''⟩ := hall j' (by omega)
            refine ⟨e'', ?_⟩
            have heq : attempt + (j' + 1) = attempt + 1 + j' := by omega
            rw [heq]; exact he''

/-- C5: `_retry_with_backoff` invokes the wrapped operation at most
`max_retries + 1` times and returns the first successful result; the
delay list is exactly `[b*2^0, …, b*2^(n-2)]`, so the delay inserted
before retry attempt `k` (k ≥ 1) equals `base_delay * 2^(k-1)`; and when
every attempt fails, the exception raised by the final attempt is
re-raised unchanged (the returned error is the very value produced by
attempt `max_retries`). -/
theorem C5_retry_with_backoff_spec {E A : Type} (f : Nat → Except E A)
    (max_retries : Nat) (base_delay : Rat)
    (res : Except E A) (ds : List Rat) (n : Nat)
    (h : retry_with_backoff f max_retries base_delay = (res, ds, n)) :
    n ≤ max_retries + 1 ∧
    ds = (List.range (n - 1)).map (fun j => base_delay * 2 ^ j) ∧
    (∀ a, res = .ok a →
      f (n - 1) = .ok a ∧ ∀ j, j < n - 1 → ∃ e, f j = .error e) ∧
    (∀ e, res = .error e →
      n = max_retries + 1 ∧ f max_retries = .error e ∧
      ∀ j, j ≤ max_retries → ∃ e', f j = .error e') := by
  obtain ⟨⟨_, h2⟩, h3, h4, h5⟩ :=
    retry_loop_spec f base_delay max_retries 0 res ds n h
  refine ⟨h2, by simpa using h3, ?_, ?_⟩
  · intro a ha
    obtain ⟨hok, hfail⟩ := h4 a ha
    exact ⟨by simpa using hok, fun j hj => by simpa using hfail j hj⟩
  · intro e he
    obtain ⟨hn, hlast, hall⟩ := h5 e he
    exact ⟨hn, by simpa using hlast, fun j hj => by simpa using hall j hj⟩

theorem C5_retry_with_backoff_spec_witness :
    3 ≤ 3 + 1 ∧ fW (3 - 1) = .ok 37 := by
  have h := C5_retry_with_backoff_spec fW 3 1 (.ok 37) [1, 2] 3
    (by norm_num [retry_with_backoff, retry_loop, fW])
  exact ⟨h.1, (h.2.2.1 37 rfl).1⟩

/-- When every attempt up to the retry ceiling fails, the executor
returns the final attempt's own error. -/
theorem retry_all_fail {E A : Type} (f : Nat → Except E A) (m : Nat) (b : Rat)
    (hfail : ∀ k, k ≤ m → ∃ e, f k = .error e) :
    ∃ e, (retry_with_backoff f m b).1 = .error e ∧ f m = .error e := by
  cases hres : (retry_with_backoff f m b).1 with
  | ok a =>
    obtain ⟨⟨h1, h2⟩, _, h4, _⟩ :=
      retry_loop_spec f b m 0 (retry_with_backoff f m b).1
        (retry_with_backoff f m b).2.1 (retry_with_backoff f m b).2.2 rfl
    obtain ⟨hok, _⟩ := h4 a hres
    obtain ⟨e, he⟩ := hfail ((retry_with_backoff f m b).2.2 - 1) (by omega)
    rw [show (0 : Nat) + ((retry_with_backoff f m b).2.2 - 1)
        = (retry_with_backoff f m b).2.2 - 1 by omega] at hok
    rw [hok] at he
    exact absurd he (by simp)
  | error e =>
    obtain ⟨_, _, _, h5⟩ :=
      retry_loop_spec f b m 0 (retry_with_backoff f m b).1
        (retry_with_backoff f m b).2.1 (retry_with_backoff f m b).2.2 rfl
    obtain ⟨_, hlast, _⟩ := h5 e hres
    exact ⟨e, rfl, by simpa using hlast⟩

/-- Shape of `_send_sms_fallback` in live (non-mock) mode: exactly one
additional SMS row is appended; its own exhaustion is terminal FAILED. -/
theorem send_sms_fallback_shape (cfg : Settings) (hashp : String → String)
    (fbsend : Nat → Except SendError SendResult) (db : DB) (oid : Nat)
    (phone : String) (nty : NotificationType) (ctx : RenderCtx) (tpl : Templates)
    (hnotmock : (cfg.MESSAGING_PROVIDER == "mock") = false) :
    ∃ frow : Notification,
      (send_sms_fallback cfg hashp fbsend db oid phone nty ctx tpl).db.notifications
        = db.notifications ++ [frow] ∧
      frow.channel = NotificationChannel.SMS ∧
      frow.phone_hash = hashp (clean_phone phone) ∧
      ((∀ k, k ≤ cfg.NOTIFICATION_MAX_RETRIES → ∃ e, fbsend k = Except.error e) →
        frow.status = NotificationStatus.FAILED) := by
  unfold send_sms_fallback
  simp only [hnotmock, Bool.false_eq_true, if_false]
  cases hfres : (retry_with_backoff fbsend cfg.NOTIFICATION_MAX_RETRIES
      cfg.NOTIFICATION_RETRY_DELAY_SECONDS).1 with
  | ok r =>
    simp only [hfres]
    refine ⟨{ order_id := oid, type := nty, channel := .SMS,
              status := .FALLBACK_SENT, phone_hash := hashp (clean_phone phone),
              message_url := some ctx.url, provider_request_id := some r.request_id,
              provider_response := some (str_take r.raw 4000), error_code := none,
              error_message := none }, ?_, rfl, rfl, ?_⟩
    · dsimp only [update_last_notification]
      rw [updateLast_append]
    · intro hfb
      obtain ⟨e, he, _⟩ := retry_all_fail fbsend _ _ hfb
      rw [hfres] at he
      exact absurd he (by simp)
  | error e =>
    simp only [hfres]
    refine ⟨{ order_id := oid, type := nty, channel := .SMS,
              status := .FAILED, phone_hash := hashp (clean_phone phone),
              message_url := some ctx.url, provider_request_id := none,
              provider_response := none,
              error_code := some (pyOr e.code "FALLBACK_FAILED"),
              error_message := some (pyOr e.details e.msg) }, ?_, rfl, rfl, fun _ => rfl⟩
    dsimp only [update_last_notification]
    rw [updateLast_append]

/-- C4: when the primary delivery exhausts its retries, exactly one
additional SMS notification row is appended iff the primary channel was
the rich-message channel and SMS fallback is enabled (the organization
override taking precedence over the global default, first conjunct);
when fallback is disabled or the primary channel was already SMS, no
fallback row is appended; and the fallback attempt's own exhaustion is
recorded as FAILED on its own row with no further attempt. -/
theorem C4_sms_fallback_invariant
    (cfg : Settings) (hashp : String → String) (rand : Nat → Fin 32)
    (prim fb : Nat → Except SendError SendResult)
    (db : DB) (oid : Nat) (phone : String) (nty : NotificationType) (o : Order)
    (horder : db.orders.find? (fun x => x.id == oid) = some o)
    (hnotmock : (cfg.MESSAGING_PROVIDER == "mock") = false)
    (hprim : ∀ k, k ≤ cfg.NOTIFICATION_MAX_RETRIES → ∃ e, prim k = Except.error e) :
    (∀ g : Organization,
      (g.msg_fallback_sms_enabled = none →
        fallback_enabled cfg (some g) = cfg.FALLBACK_SMS_ENABLED) ∧
      (∀ bb : Bool, g.msg_fallback_sms_enabled = some bb →
        fallback_enabled cfg (some g) = bb)) ∧
    ∃ prow frows,
      (send_notification cfg hashp rand prim fb db oid phone nty).db.notifications
        = db.notifications ++ prow :: frows ∧
      prow.status = NotificationStatus.FAILED ∧
      prow.channel = primary_channel_of cfg ∧
      prow.phone_hash = hashp (clean_phone phone) ∧
      ((primary_channel_of cfg = NotificationChannel.ALIMTALK ∧
          fallback_enabled cfg
            (db.organizations.find? (fun g => g.id == o.organization_id)) = true) →
        ∃ frow, frows = [frow] ∧
          frow.channel = NotificationChannel.SMS ∧
          ((∀ k, k ≤ cfg.NOTIFICATION_MAX_RETRIES → ∃ e, fb k = Except.error e) →
            frow.status = NotificationStatus.FAILED)) ∧
      (¬(primary_channel_of cfg = NotificationChannel.ALIMTALK ∧
          fallback_enabled cfg
            (db.organizations.find? (fun g => g.id == o.organization_id)) = true) →
        frows = []) := by
  constructor
  · intro g
    constructor
    · intro hn
      simp [fallback_enabled, templates_for_order, hn]
    · intro bb hb
      simp [fallback_enabled, templates_for_order, hb]
  obtain ⟨e, hres, hlast⟩ := retry_all_fail prim cfg.NOTIFICATION_MAX_RETRIES
    cfg.NOTIFICATION_RETRY_DELAY_SECONDS hprim
  unfold send_notification
  simp only [horder]
  cases htok : db.tokens.find? (fun q => q.order_id == oid) with
  | none =>
    simp only [Option.map_none', hnotmock, Bool.false_eq_true, if_false, hres]
    by_cases hc : (primary_channel_of cfg == NotificationChannel.ALIMTALK &&
        (templates_for_order cfg
          (db.organizations.find? (fun g => g.id == o.organization_id))).fallback_sms_enabled) = true
    · simp only [hc, if_true]
      obtain ⟨frow, hfrow, hch, hph2, hfail⟩ := send_sms_fallback_shape cfg hashp fb
        (update_last_notification
          { db with notifications := db.notifications ++
              [{ order_id := oid, type := nty, channel := primary_channel_of cfg,
                 status := .PENDING, phone_hash := hashp (clean_phone phone),
                 message_url := none, provider_request_id := none,
                 provider_response := none, error_code := none, error_message := none }] }
          (fun n => { n with status := .FAILED,
                             error_code := some (pyOr e.code "SEND_FAILED"),
                             error_message := some (pyOr e.details e.msg) }))
        oid (clean_phone phone) nty _ _ hnotmock
      refine ⟨{ order_id := oid, type := nty, channel := primary_channel_of cfg,
                status := .FAILED, phone_hash := hashp (clean_phone phone),
                message_url := none, provider_request_id := none,
                provider_response := none,
                error_code := some (pyOr e.code "SEND_FAILED"),
                error_message := some (pyOr e.details e.msg) }, [frow], ?_, rfl, rfl, rfl, ?_, ?_⟩
      · rw [hfrow]
        dsimp only [update_last_notification]
        rw [updateLast_append, List.append_assoc]
        rfl
      · intro _
        exact ⟨frow, rfl, hch, hfail⟩
      · intro hnc
        exfalso
        apply hnc
        obtain ⟨h1, h2⟩ := Bool.and_eq_true .. ▸ hc
        exact ⟨by simpa using h1, h2⟩
    · simp only [hc, if_false]
      refine ⟨{ order_id := oid, type := nty, channel := primary_channel_of cfg,
                status := .FAILED, phone_hash := hashp (clean_phone phone),
                message_url := none, provider_request_id := none,
                provider_response := none,
                error_code := some (pyOr e.code "SEND_FAILED"),
                error_message := some (pyOr e.details e.msg) }, [], ?_, rfl, rfl, rfl, ?_, fun _ => rfl⟩
      · dsimp only [update_last_notification]
        rw [updateLast_append]
        rfl
      · intro hcond
        exfalso
        apply hc
        refine Bool.and_eq_true .. ▸ ⟨?_, hcond.2⟩
        simp [hcond.1]
  | some q =>
    have hnots : (get_or_create_public_proof db oid q.token rand).1.notifications
        = db.notifications := by
      rw [get_or_create_frame]
    simp only [Option.map_some', hnotmock, Bool.false_eq_true, if_false, hres]
    rw [hnots]
    by_cases hc : (primary_channel_of cfg == NotificationChannel.ALIMTALK &&
        (templates_for_order cfg
          (db.organizations.find? (fun g => g.id == o.organization_id))).fallback_sms_enabled) = true
    · simp only [hc, if_true]
      obtain ⟨frow, hfrow, hch, hph2, hfail⟩ := send_sms_fallback_shape cfg hashp fb
        (update_last_notification
          { (get_or_create_public_proof db oid q.token rand).1 with
              notifications := db.notifications ++
              [{ order_id := oid, type := nty, channel := primary_channel_of cfg,
                 status := .PENDING, phone_hash := hashp (clean_phone phone),
                 message_url := some (short_base_for_order cfg
                   (db.organizations.find? (fun g => g.id == o.organization_id)) ++ "/s/" ++
                   (get_or_create_public_proof db oid q.token rand).2.code),
                 provider_request_id := none,
                 provider_response := none, error_code := none, error_message := none }] }
          (fun n => { n with status := .FAILED,
                             error_code := some (pyOr e.code "SEND_FAILED"),
                             error_message := some (pyOr e.details e.msg) }))
        oid (clean_phone phone) nty _ _ hnotmock
      refine ⟨{ order_id := oid, type := nty, channel := primary_channel_of cfg,
                status := .FAILED, phone_hash := hashp (clean_phone phone),
                message_url := some (short_base_for_order cfg
                  (db.organizations.find? (fun g => g.id == o.organization_id)) ++ "/s/" ++
                  (get_or_create_public_proof db oid q.token rand).2.code),
                provider_request_id := none,
                provider_response := none,
                error_code := some (pyOr e.code "SEND_FAILED"),
                error_message := some (pyOr e.details e.msg) }, [frow], ?_, rfl, rfl, rfl, ?_, ?_⟩
      · rw [hfrow]
        dsimp only [update_last_notification]
        rw [updateLast_append, List.append_assoc]
        rfl
      · intro _
        exact ⟨frow, rfl, hch, hfail⟩
      · intro hnc
        exfalso
        apply hnc
        obtain ⟨h1, h2⟩ := Bool.and_eq_true .. ▸ hc
        exact ⟨by simpa using h1, h2⟩
    · simp only [hc, if_false]
      refine ⟨{ order_id := oid, type := nty, channel := primary_channel_of cfg,
                status := .FAILED, phone_hash := hashp (clean_phone phone),
                message_url := some (short_base_for_order cfg
                  (db.organizations.find? (fun g => g.id == o.organization_id)) ++ "/s/" ++
                  (get_or_create_public_proof db oid q.token rand).2.code),
                provider_request_id := none,
                provider_response := none,
                error_code := some (pyOr e.code "SEND_FAILED"),
                error_message := some (pyOr e.details e.msg) }, [], ?_, rfl, rfl, rfl, ?_, fun _ => rfl⟩
      · dsimp only [update_last_notification]
        rw [updateLast_append]
        rfl
      · intro hcond
        exfalso
        apply hc
        refine Bool.and_eq_true .. ▸ ⟨?_, hcond.2⟩
        simp [hcond.1]

theorem C4_sms_fallback_invariant_witness :
    ∃ prow frows,
      (send_notification cfgReal hashW randW primFail primFail dbW 1 "010-1"
          NotificationType.SENDER).db.notifications
        = dbW.notifications ++ prow :: frows ∧
      prow.status = NotificationStatus.FAILED := by
  obtain ⟨-, prow, frows, h1, h2, -⟩ :=
    C4_sms_fallback_invariant cfgReal hashW randW primFail primFail dbW 1 "010-1"
      NotificationType.SENDER oW rfl rfl (fun k _ => ⟨errW, rfl⟩)
  exact ⟨prow, frows, h1, h2⟩

/-! ### C1: proof-type gating in `create_proof` -/

theorem find?_map_pred {α : Type} (l : List α) (f : α → α) (p : α → Bool)
    (hp : ∀ a, p (f a) = p a) :
    (l.map f).find? p = (l.find? p).map f := by
  rw [List.find?_map]
  have hfp : p ∘ f = p := funext hp
  rw [hfp]

theorem invalidate_orders (X : DB) (t : String) :
    (invalidate_token_after_proof X t).orders = X.orders := by
  unfold invalidate_token_after_proof
  cases get_token X t <;> rfl

theorem validate_token_invalidate (X : DB) (t : String) (qx : QRToken)
    (hx : get_token X t = some qx) :
    validate_token (invalidate_token_after_proof X t) t = false := by
  have htok : (invalidate_token_after_proof X t).tokens
      = X.tokens.map (fun r => if r.token == t then { r with is_valid := false } else r) := by
    unfold invalidate_token_after_proof
    rw [hx]
  unfold validate_token get_token
  rw [htok]
  rw [find?_map_pred _ _ _ (fun a => by by_cases h : (a.token == t) = true <;> simp [h])]
  have hx' : X.tokens.find? (fun r => r.token == t) = some qx := hx
  rw [hx']
  have hqe : qx.token = t := by simpa using List.find?_some hx
  simp [hqe]

/-- C1: for every successful proof recording, exactly when the recorded
type is AFTER the order's status is set to PROOF_UPLOADED, the order's
token is invalidated, and the dual notification is scheduled exactly
once; recording any other type leaves every order row and every token
row unchanged (so the token stays valid) and schedules nothing. -/
theorem C1_after_proof_gating
    (db : DB) (tok : String) (file : UploadedFile) (pt : ProofType) (ts : String)
    (q : QRToken) (o : Order)
    (hq : get_token db tok = some q)
    (hv : q.is_valid = true)
    (ho : db.orders.find? (fun x => x.id == q.order_id) = some o)
    (hnodup : db.proofs.find? (fun p => p.order_id == o.id && p.proof_type == pt) = none) :
    (∃ ok : CreateProofOk, (create_proof db tok file pt ts).result = .ok ok) ∧
    (pt = ProofType.AFTER →
      (create_proof db tok file pt ts).db.orders.find? (fun x => x.id == q.order_id)
        = some { o with status := .PROOF_UPLOADED } ∧
      validate_token (create_proof db tok file pt ts).db tok = false ∧
      (create_proof db tok file pt ts).dual_notifications = 1) ∧
    (pt ≠ ProofType.AFTER →
      (create_proof db tok file pt ts).db.orders = db.orders ∧
      (create_proof db tok file pt ts).db.tokens = db.tokens ∧
      validate_token (create_proof db tok file pt ts).db tok = true ∧
      (create_proof db tok file pt ts).dual_notifications = 0) := by
  have horder : get_order_by_token db tok = some o := by
    unfold get_order_by_token
    rw [hq]
    simp [hv, ho]
  have hAA : ((ProofType.AFTER == ProofType.AFTER) = true) = True := eq_true rfl
  by_cases hpt : pt = ProofType.AFTER
  · subst hpt
    refine ⟨⟨⟨"success", db.nextProofId, ProofType.AFTER,
        ProofType.AFTER.value ++ " proof uploaded successfully."⟩, ?_⟩, ?_,
      fun hne => absurd rfl hne⟩
    · simp only [create_proof, horder, hnodup]
    · intro _
      refine ⟨?_, ?_, ?_⟩
      · simp only [create_proof, horder, hnodup, hAA, if_true]
        rw [invalidate_orders]
        show (db.orders.map (fun x =>
            if x.id == o.id then { x with status := OrderStatus.PROOF_UPLOADED } else x)).find?
              (fun x => x.id == q.order_id) = _
        rw [find?_map_pred _ _ _ (fun a => by by_cases h : (a.id == o.id) = true <;> simp [h])]
        rw [ho]
        simp
      · simp only [create_proof, horder, hnodup, hAA, if_true]
        exact validate_token_invalidate _ tok q hq
      · simp only [create_proof, horder, hnodup, hAA, if_true]
  · have hptb : (pt == ProofType.AFTER) = false := by
      simpa using hpt
    refine ⟨⟨⟨"success", db.nextProofId, pt,
        pt.value ++ " proof uploaded successfully."⟩, ?_⟩,
      fun h => absurd h hpt, fun _ => ⟨?_, ?_, ?_, ?_⟩⟩
    · simp only [create_proof, horder, hnodup]
    · simp only [create_proof, horder, hnodup, hptb, Bool.false_eq_true, if_false]
    · simp only [create_proof, horder, hnodup, hptb, Bool.false_eq_true, if_false]
    · simp only [create_proof, horder, hnodup, hptb, Bool.false_eq_true, if_false]
      show validate_token db tok = true
      unfold validate_token
      rw [hq]
      exact hv
    · simp only [create_proof, horder, hnodup, hptb, Bool.false_eq_true, if_false]

theorem C1_after_proof_gating_witness :
    validate_token (create_proof dbT "tokW" fileW ProofType.AFTER "ts").db "tokW" = false ∧
    (create_proof dbT "tokW" fileW ProofType.AFTER "ts").dual_notifications = 1 := by
  obtain ⟨-, hafter, -⟩ :=
    C1_after_proof_gating dbT "tokW" fileW ProofType.AFTER "ts" qW oW rfl rfl rfl rfl
  obtain ⟨-, h2, h3⟩ := hafter rfl
  exact ⟨h2, h3⟩

/-! ### Small service-level helpers -/

theorem validate_of_get_order (db : DB) (tok : String) (o : Order)
    (h : get_order_by_token db tok = some o) : validate_token db tok = true := by
  unfold get_order_by_token at h
  unfold validate_token
  cases hg : get_token db tok with
  | none => rw [hg] at h; simp at h
  | some qq =>
    rw [hg] at h
    by_cases hvv : qq.is_valid = true
    · exact hvv
    · simp only [Bool.not_eq_true] at hvv
      simp [hvv] at h

theorem get_order_none_of_invalid (db : DB) (tok : String)
    (h : validate_token db tok = false) : get_order_by_token db tok = none := by
  unfold validate_token at h
  unfold get_order_by_token
  cases hg : get_token db tok with
  | none => rfl
  | some qq =>
    rw [hg] at h
    have hval : qq.is_valid = false := h
    simp [hval]

/-! ### C3: precondition order in the upload route -/

/-- C3 counterexample: for an upload whose token does not validate AND
whose file has a non-image content type, the route fails with the 422
file-type error, not with TOKEN_INVALID — the token is only checked
after the file gates. -/
theorem C3_counterexample :
    get_order_by_token dbW "nosuch" = none ∧
    (upload_proof dbW "nosuch" fileTxt ProofType.AFTER "ts").response
      = .error (422, "UPLOAD_FAILED: Invalid file type. Only images are allowed.") := by
  exact ⟨rfl, rfl⟩

/-- C3 amended: the checks run in the order (c) file content-type,
(d) file size — at the route — then (a) token validity, (b) duplicate
proof type — in the service.  A bad content type or an oversize file is
reported (422) even when the token is invalid; an upload passing both
file gates with a token that does not validate fails with the
TOKEN_INVALID error (404) regardless of existing proofs; and with a
valid token a duplicate type fails with the duplicate error. -/
theorem C3_amended_precondition_order
    (db : DB) (tok : String) (file : UploadedFile) (pt : ProofType) (ts : String) :
    ((py_startswith (file.content_type.getD "") "image/") = false →
      (upload_proof db tok file pt ts).response
        = .error (422, "UPLOAD_FAILED: Invalid file type. Only images are allowed.") ∧
      (upload_proof db tok file pt ts).db = db) ∧
    ((py_startswith (file.content_type.getD "") "image/") = true →
      file.contents.length > 10 * 1024 * 1024 →
      (upload_proof db tok file pt ts).response
        = .error (422, "UPLOAD_FAILED: File too large. Maximum size is 10MB.") ∧
      (upload_proof db tok file pt ts).db = db) ∧
    ((py_startswith (file.content_type.getD "") "image/") = true →
      file.contents.length ≤ 10 * 1024 * 1024 →
      get_order_by_token db tok = none →
      (upload_proof db tok file pt ts).response
        = .error (404, "Invalid or expired token.") ∧
      (upload_proof db tok file pt ts).db = db) ∧
    (∀ (o : Order) (pr : Proof),
      (py_startswith (file.content_type.getD "") "image/") = true →
      file.contents.length ≤ 10 * 1024 * 1024 →
      get_order_by_token db tok = some o →
      db.proofs.find? (fun p => p.order_id == o.id && p.proof_type == pt) = some pr →
      (upload_proof db tok file pt ts).response
        = .error (404, pt.value ++ " proof already uploaded for this order.") ∧
      (upload_proof db tok file pt ts).db = db) := by
  refine ⟨?_, ?_, ?_, ?_⟩
  · intro hc
    constructor <;> simp [upload_proof, hc]
  · intro hc hsize
    constructor <;> simp [upload_proof, hc, hsize]
  · intro hc hsize htok
    have hns : ¬ (file.contents.length > 10 * 1024 * 1024) := by omega
    constructor <;>
      simp [upload_proof, create_proof, hc, hns, htok, ProofError.message]
  · intro o pr hc hsize horder hdup
    have hns : ¬ (file.contents.length > 10 * 1024 * 1024) := by omega
    constructor <;>
      simp [upload_proof, create_proof, hc, hns, horder, hdup, ProofError.message]

theorem C3_amended_precondition_order_witness :
    (upload_proof dbW "nosuch" fileW ProofType.AFTER "ts").response
      = .error (404, "Invalid or expired token.") := by
  obtain ⟨-, -, h3, -⟩ :=
    C3_amended_precondition_order dbW "nosuch" fileW ProofType.AFTER "ts"
  exact (h3 (by decide) (by decide) (by decide)).1

/-! ### C6: duplicate proof rejection -/

/-- C6 counterexample: a duplicate AFTER upload with a valid token and a
well-formed file is rejected with HTTP status 404 (the route maps every
`ValueError` to 404), not the 422 the claim states. -/
theorem C6_counterexample :
    (upload_proof dbDup "tokW" fileW ProofType.AFTER "ts").response
      = .error (404, "AFTER proof already uploaded for this order.") ∧
    (404, "AFTER proof already uploaded for this order.")
      ≠ ((422 : Nat), "AFTER proof already uploaded for this order.") := by
  exact ⟨rfl, by decide⟩

/-- C6 amended: recording a second proof of an already-present type
fails with the duplicate-proof error — reported as HTTP 404, since the
route maps all `ValueError`s to 404 — and leaves the state unchanged:
the database is unmodified (no new Proof row, order status untouched),
nothing is scheduled, and the token stays valid. -/
theorem C6_amended_duplicate_rejection
    (db : DB) (tok : String) (file : UploadedFile) (pt : ProofType) (ts : String)
    (o : Order) (pr : Proof)
    (hct : (py_startswith (file.content_type.getD "") "image/") = true)
    (hsize : file.contents.length ≤ 10 * 1024 * 1024)
    (horder : get_order_by_token db tok = some o)
    (hdup : db.proofs.find? (fun p => p.order_id == o.id && p.proof_type == pt) = some pr) :
    (upload_proof db tok file pt ts).response
      = .error (404, pt.value ++ " proof already uploaded for this order.") ∧
    (upload_proof db tok file pt ts).db = db ∧
    (upload_proof db tok file pt ts).dual_notifications = 0 ∧
    validate_token (upload_proof db tok file pt ts).db tok = true := by
  have hns : ¬ (file.contents.length > 10 * 1024 * 1024) := by omega
  have hdb : (upload_proof db tok file pt ts).db = db := by
    simp [upload_proof, create_proof, hct, hns, horder, hdup]
  refine ⟨?_, hdb, ?_, ?_⟩
  · simp [upload_proof, create_proof, hct, hns, horder, hdup, ProofError.message]
  · simp [upload_proof, create_proof, hct, hns, horder, hdup]
  · rw [hdb]
    exact validate_of_get_order db tok o horder

theorem C6_amended_duplicate_rejection_witness :
    (upload_proof dbDup "tokW" fileW ProofType.AFTER "ts").db = dbDup ∧
    validate_token (upload_proof dbDup "tokW" fileW ProofType.AFTER "ts").db "tokW" = true := by
  obtain ⟨-, h2, -, h4⟩ :=
    C6_amended_duplicate_rejection dbDup "tokW" fileW ProofType.AFTER "ts" oW proofW
      (by decide) (by decide) (by decide) (by decide)
  exact ⟨h2, h4⟩

/-! ### C7: idempotent token issuance -/

/-- Forced reissue: the existing row is deleted, a fresh valid row is
created, and the order status becomes TOKEN_ISSUED. -/
theorem issue_token_force_spec (cfg : Settings) (db : DB) (oid : Nat)
    (o : Order) (q : QRToken) (tk : String)
    (ho : db.orders.find? (fun x => x.id == oid) = some o)
    (hq : db.tokens.find? (fun r => r.order_id == o.id) = some q)
    (hfresh : ∀ r ∈ db.tokens, r.token ≠ tk) :
    (issue_token cfg db oid none true tk).2
      = .ok { token := tk, token_valid := true,
              upload_url := cfg.WEB_BASE_URL ++ "/proof/" ++ tk,
              public_proof_url := cfg.WEB_BASE_URL ++ "/p/" ++ tk } ∧
    q ∉ (issue_token cfg db oid none true tk).1.tokens ∧
    (∃ q', (issue_token cfg db oid none true tk).1.tokens.find?
        (fun r => r.order_id == o.id) = some q' ∧ q'.token = tk ∧ q'.is_valid = true) ∧
    (issue_token cfg db oid none true tk).1.orders.find? (fun x => x.id == oid)
      = some { o with status := .TOKEN_ISSUED } := by
  have hqo' : q.order_id = o.id := by simpa using List.find?_some hq
  have hqmem : q ∈ db.tokens := List.mem_of_find?_eq_some hq
  have hany : ((db.tokens.filter (fun r => !(r.order_id == o.id))).any
      (fun r => r.token == tk || r.order_id == o.id)) = false := by
    rw [List.any_eq_false]
    intro r hr
    rw [List.mem_filter] at hr
    obtain ⟨hrmem, hrne⟩ := hr
    have ht : (r.token == tk) = false := by
      simpa using hfresh r hrmem
    have hi : (r.order_id == o.id) = false := by simpa using hrne
    simp [ht, hi]
  have hstep : issue_token cfg db oid none true tk
      = issue_new cfg { db with tokens := db.tokens.filter (fun r => !(r.order_id == o.id)) }
          o tk := by
    simp [issue_token, ho, hq]
  have hnone : ((db.tokens.filter (fun r => !(r.order_id == o.id))).find?
      (fun r => r.order_id == o.id)) = none := by
    rw [List.find?_eq_none]
    intro r hr
    rw [List.mem_filter] at hr
    simpa using hr.2
  rw [hstep]
  unfold issue_new create_token_for_order
  simp only [hany, Bool.false_eq_true, if_false]
  refine ⟨by trivial, ?_, ?_, ?_⟩
  · intro hmem
    rw [List.mem_append] at hmem
    cases hmem with
    | inl hl =>
      rw [List.mem_filter] at hl
      have hne : ¬ (q.order_id = o.id) := by simpa using hl.2
      exact absurd hqo' hne
    | inr hr =>
      have htk : q.token = tk := by
        have hq1 : q = { id := db.nextTokenId, token := tk, order_id := o.id,
                         is_valid := true, revoked_at := none } := by simpa using hr
        rw [hq1]
      exact hfresh q hqmem htk
  · refine ⟨{ id := db.nextTokenId, token := tk, order_id := o.id,
              is_valid := true, revoked_at := none }, ?_, rfl, rfl⟩
    have hfd : ((db.tokens.filter (fun r => !(r.order_id == o.id))) ++
        [({ id := db.nextTokenId, token := tk, order_id := o.id,
            is_valid := true, revoked_at := none } : QRToken)]).find?
          (fun r => r.order_id == o.id)
        = some { id := db.nextTokenId, token := tk, order_id := o.id,
                 is_valid := true, revoked_at := none } := by
      rw [List.find?_append, hnone]
      simp
    exact hfd
  · have hfo : ((db.orders.map (fun x =>
        if x.id == o.id then { x with status := OrderStatus.TOKEN_ISSUED } else x)).find?
          (fun x => x.id == oid))
        = some { o with status := OrderStatus.TOKEN_ISSUED } := by
      rw [find?_map_pred _ _ _ (fun a => by by_cases h : (a.id == o.id) = true <;> simp [h])]
      rw [ho]
      simp
    exact hfo

/-- C7: when the order already has a valid token, `issue_token` with
`force = false` returns that token string unchanged and leaves the
database untouched, so two consecutive non-forced calls return the
identical token; with `force = true` (given a fresh random value) the
existing row is deleted, a new valid row with the new value is created,
and the order status is set to TOKEN_ISSUED. -/
theorem C7_issue_token_idempotent
    (cfg : Settings) (db : DB) (oid : Nat) (o : Order) (q : QRToken)
    (ho : db.orders.find? (fun x => x.id == oid) = some o)
    (hq : db.tokens.find? (fun r => r.order_id == o.id) = some q)
    (hv : q.is_valid = true) (tk1 tk2 : String) :
    issue_token cfg db oid none false tk1
      = (db, .ok { token := q.token, token_valid := true,
                   upload_url := cfg.WEB_BASE_URL ++ "/proof/" ++ q.token,
                   public_proof_url := cfg.WEB_BASE_URL ++ "/p/" ++ q.token }) ∧
    (issue_token cfg (issue_token cfg db oid none false tk1).1 oid none false tk2).2
      = .ok { token := q.token, token_valid := true,
              upload_url := cfg.WEB_BASE_URL ++ "/proof/" ++ q.token,
              public_proof_url := cfg.WEB_BASE_URL ++ "/p/" ++ q.token } ∧
    (∀ tk : String, (∀ r ∈ db.tokens, r.token ≠ tk) →
      (issue_token cfg db oid none true tk).2
        = .ok { token := tk, token_valid := true,
                upload_url := cfg.WEB_BASE_URL ++ "/proof/" ++ tk,
                public_proof_url := cfg.WEB_BASE_URL ++ "/p/" ++ tk } ∧
      q ∉ (issue_token cfg db oid none true tk).1.tokens ∧
      (∃ q', (issue_token cfg db oid none true tk).1.tokens.find?
          (fun r => r.order_id == o.id) = some q' ∧
        q'.token = tk ∧ q'.is_valid = true) ∧
      (issue_token cfg db oid none true tk).1.orders.find? (fun x => x.id == oid)
        = some { o with status := .TOKEN_ISSUED }) := by
  have hqo' : q.order_id = o.id := by simpa using List.find?_some hq
  have hqmem : q ∈ db.tokens := List.mem_of_find?_eq_some hq
  have h1 : issue_token cfg db oid none false tk1
      = (db, .ok { token := q.token, token_valid := true,
                   upload_url := cfg.WEB_BASE_URL ++ "/proof/" ++ q.token,
                   public_proof_url := cfg.WEB_BASE_URL ++ "/p/" ++ q.token }) := by
    simp [issue_token, ho, hq, hv]
  have h2 : issue_token cfg db oid none false tk2
      = (db, .ok { token := q.token, token_valid := true,
                   upload_url := cfg.WEB_BASE_URL ++ "/proof/" ++ q.token,
                   public_proof_url := cfg.WEB_BASE_URL ++ "/p/" ++ q.token }) := by
    simp [issue_token, ho, hq, hv]
  refine ⟨h1, ?_, ?_⟩
  · rw [h1, h2]
  · intro tk hfresh
    exact issue_token_force_spec cfg db oid o q tk ho hq hfresh

theorem C7_issue_token_idempotent_witness :
    issue_token defaultSettings dbT 1 none false "x1"
      = (dbT, .ok { token := "tokW", token_valid := true,
                    upload_url := defaultSettings.WEB_BASE_URL ++ "/proof/" ++ "tokW",
                    public_proof_url := defaultSettings.WEB_BASE_URL ++ "/p/" ++ "tokW" }) ∧
    (issue_token defaultSettings dbT 1 none true "newTok").2
      = .ok { token := "newTok", token_valid := true,
              upload_url := defaultSettings.WEB_BASE_URL ++ "/proof/" ++ "newTok",
              public_proof_url := defaultSettings.WEB_BASE_URL ++ "/p/" ++ "newTok" } := by
  obtain ⟨h1, -, h3⟩ :=
    C7_issue_token_idempotent defaultSettings dbT 1 oW qW rfl rfl rfl "x1" "x2"
  exact ⟨h1, (h3 "newTok" (by decide)).1⟩

/-! ### C10: the public proof page ignores token validity -/

theorem insertByRank_ne_nil (p : ProofItem) (l : List ProofItem) :
    insertByRank p l ≠ [] := by
  cases l with
  | nil => simp [insertByRank]
  | cons a as =>
    simp only [insertByRank]
    split <;> simp

theorem sortByRank_ne_nil (l : List ProofItem) (h : l ≠ []) :
    sortByRank l ≠ [] := by
  cases l with
  | nil => exact absurd rfl h
  | cons p ps => exact insertByRank_ne_nil p (sortByRank ps)

/-- C10: `get_proof_by_token` does not require token validity — for an
existing but invalidated token row whose order has proofs, the order
summary path says TOKEN_INVALID while the proof page still returns the
proof data; and the proof page returns none exactly when the token row
is absent or the order has no proofs. -/
theorem C10_proof_page_ignores_validity
    (db : DB) (t : String) (q : QRToken) (o : Order) (g : Organization)
    (hq : get_token db t = some q)
    (hinv : q.is_valid = false)
    (ho : db.orders.find? (fun x => x.id == q.order_id) = some o)
    (hg : db.organizations.find? (fun x => x.id == o.organization_id) = some g)
    (hproofs : db.proofs.filter (fun p => p.order_id == o.id) ≠ []) :
    get_order_by_token db t = none ∧
    route_get_order_summary db t = .error (404, "TOKEN_INVALID") ∧
    (∃ d, get_proof_by_token db t = some d) ∧
    (∀ s, get_token db s = none → get_proof_by_token db s = none) ∧
    (∀ s (qs : QRToken) (os : Order), get_token db s = some qs →
      db.orders.find? (fun x => x.id == qs.order_id) = some os →
      db.proofs.filter (fun p => p.order_id == os.id) = [] →
      get_proof_by_token db s = none) := by
  have hval : validate_token db t = false := by
    unfold validate_token
    rw [hq]
    exact hinv
  have hnone : get_order_by_token db t = none := get_order_none_of_invalid db t hval
  refine ⟨hnone, ?_, ?_, ?_, ?_⟩
  · unfold route_get_order_summary
    rw [hnone]
  · unfold get_proof_by_token
    rw [hq]
    simp only [ho, hg]
    have hne : (db.proofs.filter (fun p => p.order_id == o.id)).isEmpty = false := by
      cases hl : db.proofs.filter (fun p => p.order_id == o.id) with
      | nil => exact absurd hl hproofs
      | cons a as => rfl
    simp only [hne, Bool.false_eq_true, if_false]
    have hmapne : ((db.proofs.filter (fun p => p.order_id == o.id)).map (fun p =>
        ({ id := p.id, proof_type := p.proof_type.value,
           proof_url := "/uploads/" ++ p.file_path,
           uploaded_at := p.uploaded_at } : ProofItem))) ≠ [] := by
      intro hemp
      rw [List.map_eq_nil_iff] at hemp
      exact hproofs hemp
    cases hs : sortByRank ((db.proofs.filter (fun p => p.order_id == o.id)).map (fun p =>
        ({ id := p.id, proof_type := p.proof_type.value,
           proof_url := "/uploads/" ++ p.file_path,
           uploaded_at := p.uploaded_at } : ProofItem))) with
    | nil => exact absurd hs (sortByRank_ne_nil _ hmapne)
    | cons hd tl => exact ⟨_, rfl⟩
  · intro s hs
    unfold get_proof_by_token
    rw [hs]
  · intro s qs os h1 h2 h3
    unfold get_proof_by_token
    rw [h1]
    simp only [h2]
    cases hgs : db.organizations.find? (fun x => x.id == os.organization_id) with
    | none => rfl
    | some gg => simp [h3]

theorem C10_proof_page_ignores_validity_witness :
    get_order_by_token dbInv "tokW" = none ∧
    (get_proof_by_token dbInv "tokW").isSome = true := by
  obtain ⟨h1, -, ⟨d, hd⟩, -⟩ :=
    C10_proof_page_ignores_validity dbInv "tokW" { qW with is_valid := false }
      oW orgW rfl rfl rfl rfl (by decide)
  refine ⟨h1, ?_⟩
  rw [hd]
  rfl

/-! ### C8: short-code alphabet and collision handling -/

theorem getD_ALPHABET_mem (i : Nat) : ALPHABET.getD i 'A' ∈ ALPHABET := by
  cases hg : ALPHABET[i]? with
  | none =>
    have hd : ALPHABET.getD i 'A' = 'A' := by simp [List.getD, hg]
    rw [hd]
    decide
  | some c =>
    have hd : ALPHABET.getD i 'A' = c := by simp [List.getD, hg]
    rw [hd]
    exact List.getElem?_mem hg

theorem generate_code_alphabet (rand : Nat → Fin 32) (off len : Nat) :
    ∀ c ∈ (generate_code rand off len).toList, c ∈ ALPHABET := by
  intro c hc
  have hc' : c ∈ (List.range len).map (fun i => ALPHABET.getD (rand (off + i)).val 'A') := hc
  rw [List.mem_map] at hc'
  obtain ⟨i, -, rfl⟩ := hc'
  exact getD_ALPHABET_mem _

theorem generate_code_length (rand : Nat → Fin 32) (off len : Nat) :
    (generate_code rand off len).length = len := by
  unfold generate_code
  show ((List.range len).map (fun i => ALPHABET.getD (rand (off + i)).val 'A')).length = len
  rw [List.length_map, List.length_range]

/-- The bounded retry loop returns either a uniqueness-checked
7-character code or the (unchecked) 9-character last-resort code. -/
theorem short_code_loop_code (db : DB) (oid : Nat) (tok : String)
    (rand : Nat → Fin 32) :
    ∀ (fuel attempt : Nat),
      (∃ a, (short_code_loop db oid tok rand attempt fuel).2.code
          = generate_code rand (a * 7) 7 ∧
        db.shortLinks.any (fun l =>
          l.code == (short_code_loop db oid tok rand attempt fuel).2.code) = false) ∨
      (short_code_loop db oid tok rand attempt fuel).2.code = generate_code rand (12 * 7) 9 := by
  intro fuel
  induction fuel with
  | zero => intro attempt; right; rfl
  | succ n ih =>
    intro attempt
    rw [short_code_loop]
    cases hany : db.shortLinks.any (fun l => l.code == generate_code rand (attempt * 7) 7) with
    | true =>
      simp only [hany, if_true]
      exact ih (attempt + 1)
    | false =>
      simp only [hany, Bool.false_eq_true, if_false]
      exact Or.inl ⟨attempt, rfl, by trivial⟩

/-- C8 counterexample: with a collision-heavy store and an adversarial
(but valid) random stream, the 9-character last-resort code is inserted
even though it equals a code already stored for another order — the
last-resort insert performs no uniqueness check. -/
theorem C8_counterexample :
    (get_or_create_public_proof dbSL 1 "t1" randW).2.code = "222222222" ∧
    dbSL.shortLinks.any (fun l =>
      l.code == (get_or_create_public_proof dbSL 1 "t1" randW).2.code &&
        !(l.order_id == 1)) = true := by
  exact ⟨by decide, by decide⟩

/-- C8 amended: every generated code (fixed-length and last-resort)
consists only of characters from the 32-character restricted alphabet;
the created code has length 7 or 9; and a 7-character code is only ever
inserted after the uniqueness check found no stored code equal to it —
the 9-character last-resort code is inserted without such a check. -/
theorem C8_amended_code_generation
    (rand : Nat → Fin 32) (off len : Nat) (db : DB) (oid : Nat) (tok : String)
    (hnolink : db.shortLinks.find? (fun l => l.order_id == oid) = none) :
    (∀ c ∈ (generate_code rand off len).toList, c ∈ ALPHABET) ∧
    (∀ c ∈ (get_or_create_public_proof db oid tok rand).2.code.toList, c ∈ ALPHABET) ∧
    ((get_or_create_public_proof db oid tok rand).2.code.length = 7 ∨
      (get_or_create_public_proof db oid tok rand).2.code.length = 9) ∧
    ((get_or_create_public_proof db oid tok rand).2.code.length = 7 →
      db.shortLinks.any (fun l =>
        l.code == (get_or_create_public_proof db oid tok rand).2.code) = false) := by
  have hloop : get_or_create_public_proof db oid tok rand
      = short_code_loop db oid tok rand 0 12 := by
    unfold get_or_create_public_proof
    rw [hnolink]
  obtain hspec := short_code_loop_code db oid tok rand 12 0
  refine ⟨generate_code_alphabet rand off len, ?_, ?_, ?_⟩
  · rw [hloop]
    cases hspec with
    | inl h =>
      obtain ⟨a, hcode, -⟩ := h
      rw [hcode]
      exact generate_code_alphabet rand (a * 7) 7
    | inr h =>
      rw [h]
      exact generate_code_alphabet rand (12 * 7) 9
  · rw [hloop]
    cases hspec with
    | inl h =>
      obtain ⟨a, hcode, -⟩ := h
      rw [hcode, generate_code_length]
      exact Or.inl (by trivial)
    | inr h =>
      rw [h, generate_code_length]
      exact Or.inr rfl
  · intro hlen
    rw [hloop] at hlen ⊢
    cases hspec with
    | inl h =>
      obtain ⟨a, -, hok⟩ := h
      exact hok
    | inr h =>
      rw [h, generate_code_length] at hlen
      exact absurd hlen (by decide)

theorem C8_amended_code_generation_witness :
    (get_or_create_public_proof dbW 1 "t1" randW).2.code.length = 7 ∧
    dbW.shortLinks.any (fun l =>
      l.code == (get_or_create_public_proof dbW 1 "t1" randW).2.code) = false := by
  obtain ⟨-, -, -, huniq⟩ :=
    C8_amended_code_generation randW 0 7 dbW 1 "t1" rfl
  have h7 : (get_or_create_public_proof dbW 1 "t1" randW).2.code.length = 7 := by decide
  exact ⟨h7, huniq h7⟩

/-! ### C9: raw phone number in the mock-mode log -/

/-- C9: evaluating `_send_notification` in mock mode on a concrete order
shows the code writing the raw (cleaned) phone number into a log line —
`_mock_send` logs `phone={phone}` — even though every persisted
Notification row stores only the one-way hash.  This contradicts the
stated obligation that raw phone numbers are never logged. -/
theorem C9_mock_send_logs_raw_phone :
    (∃ l ∈ (send_notification defaultSettings hashW randW primFail primFail dbW 1
        "010-1234-5678" NotificationType.SENDER).logs,
      ∃ pre post, l = pre ++ clean_phone "010-1234-5678" ++ post) ∧
    ((send_notification defaultSettings hashW randW primFail primFail dbW 1
        "010-1234-5678" NotificationType.SENDER).db.notifications.map
      (fun n => n.phone_hash)) = [hashW (clean_phone "010-1234-5678")] := by
  constructor
  · refine ⟨"[MOCK] notify type=SENDER phone=01012345678 msg=Brand\\n인증: http://localhost:3000",
      by decide, "[MOCK] notify type=SENDER phone=",
      " msg=Brand\\n인증: http://localhost:3000", by decide⟩
  · decide

/-! ### C2: one-way token invalidity -/

theorem validate_false_of_invalidFor (db : DB) (t : String)
    (h : invalidFor db t) : validate_token db t = false := by
  unfold validate_token
  cases hg : get_token db t with
  | none => rfl
  | some q =>
    have hmem := List.mem_of_find?_eq_some hg
    have hqt : q.token = t := by simpa using List.find?_some hg
    exact h q hmem hqt

theorem invalidFor_invalidate (X : DB) (t : String) :
    invalidFor (invalidate_token_after_proof X t) t := by
  unfold invalidate_token_after_proof
  cases hg : get_token X t with
  | none =>
    intro r hr hrt
    have hr2 : r ∈ X.tokens := hr
    have hg2 : X.tokens.find? (fun q => q.token == t) = none := hg
    rw [List.find?_eq_none] at hg2
    exact absurd (by simpa using hrt) (by simpa using hg2 r hr2)
  | some q =>
    intro r hr hrt
    have hr' : r ∈ X.tokens.map (fun r =>
        if r.token == t then { r with is_valid := false } else r) := hr
    rw [List.mem_map] at hr'
    obtain ⟨r0, -, rfl⟩ := hr'
    by_cases hb : (r0.token == t) = true
    · have hb' := eq_true hb
      simp only [hb', if_true]
    · have hb' := eq_false hb
      simp only [hb', if_false] at hrt
      exact absurd (by simpa using hrt) (by simpa using hb)

theorem invalidate_tokens_shape (X : DB) (tok : String) :
    (invalidate_token_after_proof X tok).tokens = X.tokens ∨
    (invalidate_token_after_proof X tok).tokens
      = X.tokens.map (fun r => if r.token == tok then { r with is_valid := false } else r) := by
  unfold invalidate_token_after_proof
  cases get_token X tok with
  | none => exact Or.inl (by trivial)
  | some q => exact Or.inr rfl

theorem create_proof_tokens (db : DB) (tok : String) (file : UploadedFile)
    (pt : ProofType) (ts : String) :
    (create_proof db tok file pt ts).db.tokens = db.tokens ∨
    (create_proof db tok file pt ts).db.tokens
      = db.tokens.map (fun r => if r.token == tok then { r with is_valid := false } else r) := by
  unfold create_proof
  cases ho : get_order_by_token db tok with
  | none => simp only [ho]; exact Or.inl (by trivial)
  | some o =>
    simp only [ho]
    cases hd : db.proofs.find? (fun p => p.order_id == o.id && p.proof_type == pt) with
    | some pr => simp only [hd]; exact Or.inl (by trivial)
    | none =>
      simp only [hd]
      by_cases hpt : (pt == ProofType.AFTER) = true
      · have h' := eq_true hpt
        simp only [h', if_true]
        exact invalidate_tokens_shape _ tok
      · have h' := eq_false hpt
        simp only [h', if_false]
        exact Or.inl (by trivial)

theorem upload_proof_tokens (db : DB) (tok : String) (file : UploadedFile)
    (pt : ProofType) (ts : String) :
    (upload_proof db tok file pt ts).db.tokens = db.tokens ∨
    (upload_proof db tok file pt ts).db.tokens
      = db.tokens.map (fun r => if r.token == tok then { r with is_valid := false } else r) := by
  unfold upload_proof
  by_cases h1 : (!(py_startswith (file.content_type.getD "") "image/")) = true
  · have h' := eq_true h1
    simp only [h', if_true]
    exact Or.inl (by trivial)
  · have h' := eq_false h1
    simp only [h', if_false]
    by_cases h2 : file.contents.length > 10 * 1024 * 1024
    · have h2' := eq_true h2
      simp only [h2', if_true]
      exact Or.inl (by trivial)
    · have h2' := eq_false h2
      simp only [h2', if_false]
      cases hres : (create_proof db tok file pt ts).result with
      | ok r =>
        simp only [hres]
        exact create_proof_tokens db tok file pt ts
      | error e =>
        simp only [hres]
        exact create_proof_tokens db tok file pt ts

theorem issue_new_tokens_sub (cfg : Settings) (X : DB) (o : Order) (tk : String) :
    ∀ r ∈ (issue_new cfg X o tk).1.tokens, r ∈ X.tokens ∨ r.token = tk := by
  intro r hr
  unfold issue_new create_token_for_order at hr
  by_cases hany : (X.tokens.any (fun q => q.token == tk || q.order_id == o.id)) = true
  · have h' := eq_true hany
    simp only [h', if_true] at hr
    exact Or.inl hr
  · have h' := eq_false hany
    simp only [h', if_false] at hr
    have hr' : r ∈ X.tokens ++ [({ id := X.nextTokenId, token := tk, order_id := o.id,
                                    is_valid := true, revoked_at := none } : QRToken)] := hr
    rw [List.mem_append] at hr'
    cases hr' with
    | inl hl => exact Or.inl hl
    | inr hrr =>
      right
      have he : r = { id := X.nextTokenId, token := tk, order_id := o.id,
                      is_valid := true, revoked_at := none } := by simpa using hrr
      rw [he]

theorem issue_token_tokens_sub (cfg : Settings) (db : DB) (oid : Nat)
    (scope : Option Nat) (force : Bool) (tk : String) :
    ∀ r ∈ (issue_token cfg db oid scope force tk).1.tokens,
      r ∈ db.tokens ∨ r.token = tk := by
  intro r hr
  unfold issue_token at hr
  cases ho : db.orders.find? (fun o => o.id == oid &&
      (match scope with
       | some s => o.organization_id == s
       | none => true)) with
  | none =>
    simp only [ho] at hr
    exact Or.inl hr
  | some o =>
    simp only [ho] at hr
    cases hex : db.tokens.find? (fun q => q.order_id == o.id) with
    | some ex =>
      simp only [hex] at hr
      by_cases hcond : (ex.is_valid && !force) = true
      · have hc' := eq_true hcond
        simp only [hc', if_true] at hr
        exact Or.inl hr
      · have hc' := eq_false hcond
        simp only [hc', if_false] at hr
        cases issue_new_tokens_sub cfg
            { db with tokens := db.tokens.filter (fun q => !(q.order_id == o.id)) }
            o tk r hr with
        | inl hl =>
          left
          have hl' : r ∈ db.tokens.filter (fun q => !(q.order_id == o.id)) := hl
          exact (List.mem_filter.mp hl').1
        | inr hrr => exact Or.inr hrr
    | none =>
      simp only [hex] at hr
      exact issue_new_tokens_sub cfg db o tk r hr

theorem step_preserves_invalidFor (cfg : Settings) (op : Op) (db : DB) (t : String)
    (hfresh : op.freshToken ≠ some t) (h : invalidFor db t) :
    invalidFor (Op.step cfg op db) t := by
  cases op with
  | revoke t' now =>
    show invalidFor (revoke_token db t' now).1 t
    unfold revoke_token
    cases hg : get_token db t' with
    | none => exact h
    | some q =>
      by_cases hv : q.is_valid = true
      · have hv' := eq_true hv
        simp only [hv', if_true]
        intro r hr hrt
        have hr' : r ∈ db.tokens.map (fun r =>
            if r.token == t' then { r with is_valid := false, revoked_at := some now }
            else r) := hr
        rw [List.mem_map] at hr'
        obtain ⟨r0, hr0, rfl⟩ := hr'
        by_cases hb : (r0.token == t') = true
        · have hb' := eq_true hb
          simp only [hb', if_true]
        · have hb' := eq_false hb
          simp only [hb', if_false] at hrt ⊢
          exact h r0 hr0 hrt
      · have hv' := eq_false hv
        simp only [hv', if_false]
        exact h
  | invalidateAfterProof t' =>
    show invalidFor (invalidate_token_after_proof db t') t
    cases invalidate_tokens_shape db t' with
    | inl heq =>
      intro r hr hrt
      rw [heq] at hr
      exact h r hr hrt
    | inr hmap =>
      intro r hr hrt
      rw [hmap] at hr
      rw [List.mem_map] at hr
      obtain ⟨r0, hr0, rfl⟩ := hr
      by_cases hb : (r0.token == t') = true
      · have hb' := eq_true hb
        simp only [hb', if_true]
      · have hb' := eq_false hb
        simp only [hb', if_false] at hrt ⊢
        exact h r0 hr0 hrt
  | issueToken oid force tk =>
    have htk : tk ≠ t := fun he => hfresh (by simp [Op.freshToken, he])
    show invalidFor (issue_token cfg db oid none force tk).1 t
    intro r hr hrt
    cases issue_token_tokens_sub cfg db oid none force tk r hr with
    | inl hmem => exact h r hmem hrt
    | inr htok =>
      rw [htok] at hrt
      exact absurd hrt htk
  | uploadProof t' file pt ts =>
    show invalidFor (upload_proof db t' file pt ts).db t
    cases upload_proof_tokens db t' file pt ts with
    | inl heq =>
      intro r hr hrt
      rw [heq] at hr
      exact h r hr hrt
    | inr hmap =>
      intro r hr hrt
      rw [hmap] at hr
      rw [List.mem_map] at hr
      obtain ⟨r0, hr0, rfl⟩ := hr
      by_cases hb : (r0.token == t') = true
      · have hb' := eq_true hb
        simp only [hb', if_true]
      · have hb' := eq_false hb
        simp only [hb', if_false] at hrt ⊢
        exact h r0 hr0 hrt

theorem run_ops_preserves_invalidFor (cfg : Settings) (ops : List Op) (db : DB)
    (t : String) (hfresh : ∀ op ∈ ops, op.freshToken ≠ some t)
    (h : invalidFor db t) : invalidFor (run_ops cfg ops db) t := by
  induction ops generalizing db with
  | nil => exact h
  | cons op rest ih =>
    exact ih (Op.step cfg op db)
      (fun o ho => hfresh o (List.mem_cons_of_mem _ ho))
      (step_preserves_invalidFor cfg op db t (hfresh op (List.mem_cons_self _ _)) h)

/-- C2: token invalidity is one-way.  A successful AFTER-type
`create_proof` leaves every row carrying the token invalid, as does a
successful `revoke_token`; invalidity is preserved by every modelled
operation — under the crypto-randomness assumption that freshly
generated token values of later issues never equal the token — so
`validate_token` returns false and `get_order_by_token` returns none at
every later point; and a forced reissue deletes the old token row and
creates a new one (with the fresh value, valid) rather than
reactivating the old row. -/
theorem C2_token_invalidity_one_way
    (cfg : Settings) (db : DB) (t : String) (ops : List Op)
    (file : UploadedFile) (ts : String) (now : Nat) :
    (∀ r : CreateProofOk,
      (create_proof db t file ProofType.AFTER ts).result = .ok r →
      invalidFor (create_proof db t file ProofType.AFTER ts).db t ∧
      validate_token (create_proof db t file ProofType.AFTER ts).db t = false) ∧
    ((revoke_token db t now).2 = true →
      invalidFor (revoke_token db t now).1 t ∧
      validate_token (revoke_token db t now).1 t = false) ∧
    (invalidFor db t →
      (∀ op ∈ ops, op.freshToken ≠ some t) →
      invalidFor (run_ops cfg ops db) t ∧
      validate_token (run_ops cfg ops db) t = false ∧
      get_order_by_token (run_ops cfg ops db) t = none) ∧
    (∀ (oid : Nat) (o : Order) (q : QRToken) (tk : String),
      db.orders.find? (fun x => x.id == oid) = some o →
      db.tokens.find? (fun r => r.order_id == o.id) = some q →
      (∀ r ∈ db.tokens, r.token ≠ tk) →
      q ∉ (issue_token cfg db oid none true tk).1.tokens ∧
      ∃ qn, (issue_token cfg db oid none true tk).1.tokens.find?
          (fun r => r.order_id == o.id) = some qn ∧
        qn.token = tk ∧ qn.is_valid = true) := by
  refine ⟨?_, ?_, ?_, ?_⟩
  · intro r hres
    have hi : invalidFor (create_proof db t file ProofType.AFTER ts).db t := by
      unfold create_proof at hres ⊢
      cases ho : get_order_by_token db t with
      | none => simp [ho] at hres
      | some o =>
        simp only [ho] at hres ⊢
        cases hd : db.proofs.find? (fun p =>
            p.order_id == o.id && p.proof_type == ProofType.AFTER) with
        | some pr => simp [hd] at hres
        | none =>
          simp only [hd]
          have h' : ((ProofType.AFTER == ProofType.AFTER) = true) = True := eq_true rfl
          simp only [h', if_true]
          exact invalidFor_invalidate _ t
    exact ⟨hi, validate_false_of_invalidFor _ _ hi⟩
  · intro hrev
    have hi : invalidFor (revoke_token db t now).1 t := by
      unfold revoke_token at hrev ⊢
      cases hg : get_token db t with
      | none =>
        rw [hg] at hrev
        exact absurd hrev (by simp)
      | some q =>
        rw [hg] at hrev
        dsimp only at hrev ⊢
        by_cases hv : q.is_valid = true
        · have hv' := eq_true hv
          simp only [hv', if_true]
          intro r hr hrt
          have hr' : r ∈ db.tokens.map (fun r =>
              if r.token == t then { r with is_valid := false, revoked_at := some now }
              else r) := hr
          rw [List.mem_map] at hr'
          obtain ⟨r0, -, rfl⟩ := hr'
          by_cases hb : (r0.token == t) = true
          · have hb' := eq_true hb
            simp only [hb', if_true]
          · have hb' := eq_false hb
            simp only [hb', if_false] at hrt
            exact absurd (by simpa using hrt) (by simpa using hb)
        · have hvf : q.is_valid = false := by simpa using hv
          rw [hvf] at hrev
          simp at hrev
    exact ⟨hi, validate_false_of_invalidFor _ _ hi⟩
  · intro hinv hfresh
    have hi := run_ops_preserves_invalidFor cfg ops db t hfresh hinv
    have hv := validate_false_of_invalidFor _ _ hi
    exact ⟨hi, hv, get_order_none_of_invalid _ _ hv⟩
  · intro oid o q tk ho hq hfr
    obtain ⟨-, h2, h3, -⟩ := issue_token_force_spec cfg db oid o q tk ho hq hfr
    exact ⟨h2, h3⟩

theorem C2_token_invalidity_one_way_witness :
    invalidFor (run_ops defaultSettings [Op.revoke "tokW" 5] dbInv) "tokW" ∧
    validate_token (run_ops defaultSettings [Op.revoke "tokW" 5] dbInv) "tokW" = false ∧
    get_order_by_token (run_ops defaultSettings [Op.revoke "tokW" 5] dbInv) "tokW" = none := by
  obtain ⟨-, -, h3, -⟩ :=
    C2_token_invalidity_one_way defaultSettings dbInv "tokW" [Op.revoke "tokW" 5]
      fileW "ts" 5
  refine h3 ?_ (by decide)
  intro q hq hqt
  have hq1 : q = { qW with is_valid := false } := by
    simpa [dbInv, dbDup, dbT] using hq
  rw [hq1]

end Saegim
